import Mathlib

/-!
Service-layer: account verification and credential recovery.

A shallow embedding of `src/controllers/authController.js` and
`src/utils/otpGenerator.js`.

* The six request handlers (`signup`, `verifyOTP`, `login`, `forgotPassword`,
  `resetPassword`, `resendOTP`) become pure functions from the environment of
  one call, the user collection and the request body to an `Outcome`: the JSON
  response, the collection afterwards and the mails handed to the mailer.
* `req.body` is a record of optional strings; `!field` is `present`.
* `Date.now()` is a number of milliseconds (`Env.now`), `Math.random()` is the
  draw `Env.random / 2 ^ 53`, and the mailer either delivers or throws
  (`Env.mailOk`).
* `models/User.js` and `middlewares/authMiddleware.js` are not part of the
  sources at hand; the store operations and the token issuer are modelled from
  the specification and marked as such.
* The outer `catch` of each handler answers 500 `Server error ...`. It is
  reached when `req.body` is undefined, since the destructuring at the head of
  the `try` block throws; the modelled store never throws.
* A `Date` is a `JsDate`: `new Date(t)` is an Invalid Date beyond the largest
  time value.
-/

namespace ServiceLayer

/-! ## Data model -/

/-- A JavaScript `Date`: its time value in milliseconds since the epoch, or an
Invalid Date, whose time value is `NaN`. -/
inductive JsDate where
  | valid (ms : Nat)
  | invalid
deriving DecidableEq, Repr

/-- The comparison `date < now` of a `Date` with a number of milliseconds;
every comparison with the `NaN` of an Invalid Date is false. -/
def JsDate.before (d : JsDate) (now : Nat) : Bool :=
  match d with
  | JsDate.valid ms => decide (ms < now)
  | JsDate.invalid => false

/-- One document of the user collection. `password` holds the stored hash;
`otp` and `otpExpire` are `none` when the field is unset. -/
structure User where
  _id : Nat
  name : String
  email : String
  password : String
  otp : Option String
  otpExpire : Option JsDate
  isVerified : Bool
deriving DecidableEq, Repr

/-- The user collection. -/
abbrev Store := List User

/-- The fields a handler reads from a parsed `req.body`; `none` is a missing
field. The value of `req.body` itself is an `Option Body`: it is `undefined`
(`none`) when the request reached the handler without a parsed body. -/
structure Body where
  name : Option String
  email : Option String
  password : Option String
  otp : Option String
  newPassword : Option String
deriving DecidableEq, Repr

/-- Which template a mail uses: `sendOTPEmail` or `sendPasswordResetEmail`. -/
inductive Purpose where
  | verification
  | passwordReset
deriving DecidableEq, Repr

/-- A call into the mailer: recipient, code and display name. -/
structure Mail where
  purpose : Purpose
  recipient : String
  code : String
  displayName : String
deriving DecidableEq, Repr

/-- The `data` member of a success response. -/
inductive Payload where
  | registered (userId : Nat) (email : String) (name : String)
  | session (id : Nat) (name : String) (email : String) (isVerified : Bool) (token : String)
deriving DecidableEq, Repr

/-- What `res.status(..).json(..)` sends; `error` is the `error: error.message`
member of the responses of the outer `catch`. -/
structure Response where
  status : Nat
  success : Bool
  message : String
  data : Option Payload
  error : Option String
deriving DecidableEq, Repr

/-- The session token carried by a response, if any. -/
def Response.token (r : Response) : Option String :=
  match r.data with
  | some (Payload.session _ _ _ _ t) => some t
  | _ => none

/-- The environment of one handler call. `random` is the numerator of the
`Math.random()` draw over `2 ^ 53`; `otpExpireMinutes` is
`process.env.OTP_EXPIRE_MINUTES` (`none` when unset or empty); `mailOk` tells
whether `transporter.sendMail` delivers. -/
structure Env where
  now : Nat
  random : Nat
  otpExpireMinutes : Option Nat
  mailOk : Bool
deriving DecidableEq, Repr

/-- The collaborators that are not part of the sources: the password hash and
its check (`models/User.js`), the token issuer
(`middlewares/authMiddleware.js`), and the text of the `TypeError` the engine
throws when the named property is destructured from an undefined `req.body`. -/
structure Deps where
  hash : String → String
  matchPassword : String → String → Bool
  generateToken : Nat → String
  destructureError : String → String

/-- Result of one handler call. -/
structure Outcome where
  res : Response
  store : Store
  mails : List Mail

/-! ## `utils/otpGenerator.js` -/

/-- Rounding of the non-negative dyadic `n / 2 ^ s` to the nearest IEEE double
(53 significant bits, ties to even), on numerators: the result is again a
numerator over `2 ^ s`. -/
def roundDouble (n : Nat) : Nat :=
  if n < 2 ^ 53 then n
  else
    let e := Nat.log2 n - 52
    let q := n / 2 ^ e
    let r := n % 2 ^ e
    if 2 * r < 2 ^ e then q * 2 ^ e
    else if 2 * r = 2 ^ e ∧ q % 2 = 0 then q * 2 ^ e
    else (q + 1) * 2 ^ e

/-- The number `Math.floor(100000 + Math.random() * 900000)`, where
`Math.random()` returned the double `random / 2 ^ 53` (the engines' generators
return multiples of `2 ^ -53`, so `random < 2 ^ 53` covers the draws in
`[0, 1)`): product and sum are rounded as doubles, the floor is exact. -/
def otpNumber (random : Nat) : Nat :=
  roundDouble (100000 * 2 ^ 53 + roundDouble (random * 900000)) / 2 ^ 53

/-- The code `Math.floor(100000 + Math.random() * 900000).toString()`, where
`Math.random()` returned the double `random / 2 ^ 53`. -/
def generateOTP (random : Nat) : String :=
  toString (otpNumber random)

/-- The specification's `floor(100000 + r * 900000)` for the draw
`r = random / 2 ^ 53`, in exact arithmetic. -/
def exactFloorOTP (random : Nat) : Nat :=
  100000 + random * 900000 / 2 ^ 53

/-- The largest time value of a `Date`, 8.64e15 milliseconds: `new Date(t)` is
an Invalid Date beyond it. -/
def maxTimeValue : Nat := 8640000000000000

/-- The constructor `new Date(t)` for a number `t` of milliseconds. -/
def newDate (t : Nat) : JsDate :=
  if t ≤ maxTimeValue then JsDate.valid t else JsDate.invalid

/-- The expiration `getOTPExpiration(minutes = process.env.OTP_EXPIRE_MINUTES || 10)`:
the date `new Date(Date.now() + minutes * 60 * 1000)`. -/
def getOTPExpiration (now : Nat) (envMinutes : Option Nat) (minutes : Option Nat) : JsDate :=
  let m := match minutes with
    | some m => m
    | none => envMinutes.getD 10
  newDate (now + m * 60 * 1000)

/-! ## `utils/sendEmail.js` -/

/-- The mail `sendOTPEmail(email, otp, name)` hands to the mailer. -/
def sendOTPEmail (email otp name : String) : Mail :=
  { purpose := Purpose.verification, recipient := email, code := otp, displayName := name }

/-- The mail `sendPasswordResetEmail(email, otp, name)` hands to the mailer. -/
def sendPasswordResetEmail (email otp name : String) : Mail :=
  { purpose := Purpose.passwordReset, recipient := email, code := otp, displayName := name }

/-! ## The user collection -/

/-- Modelled from the spec: `User.findOne({ email })` of the absent
`models/User.js`, the store's `find(email)`: the first document with that
email. -/
def findOne (email : String) (s : Store) : Option User :=
  s.find? (fun u => u.email == email)

/-- Modelled from the spec: the identifier the store gives a new document; it
differs from every identifier in the collection. -/
def freshId (s : Store) : Nat :=
  (s.map (fun u => u._id)).foldr max 0 + 1

/-- Modelled from the spec: the pre-save hook of the absent `models/User.js`: a
password assigned to a document is stored as its hash (`credential =
hash(password)`). -/
def setPassword (D : Deps) (password : String) (u : User) : User :=
  { u with password := D.hash password }

/-- Modelled from the spec: `User.create({...})` of the absent
`models/User.js`, the store's `create(name, email, hash, otp, otpExpiry)`: the
password is stored hashed and the document is added to the collection. -/
def create (D : Deps) (name email password otp : String) (otpExpire : JsDate)
    (isVerified : Bool) (s : Store) : User × Store :=
  let user : User := setPassword D password
    { _id := freshId s, name := name, email := email, password := password,
      otp := some otp, otpExpire := some otpExpire, isVerified := isVerified }
  (user, s ++ [user])

/-- Modelled from the spec: `user.save()` of the absent `models/User.js`, the
store's `update(account)`: the modified paths `f` are written to the document
with that `_id` (identifiers are unique in a collection). -/
def save (id : Nat) (f : User → User) (s : Store) : Store :=
  s.map (fun u => if u._id = id then f u else u)

/-- Modelled from the spec: `User.findByIdAndDelete(id)` of the absent
`models/User.js`, the store's `delete(accountId)`. -/
def findByIdAndDelete (id : Nat) (s : Store) : Store :=
  s.filter (fun u => u._id != id)

/-! ## `controllers/authController.js` -/

/-- A request field that passes the `!field` guard: present and not empty. -/
def present : Option String → Option String
  | some v => if v = "" then none else some v
  | none => none

/-- A failure response `{ success: false, message }`. -/
def fail (status : Nat) (message : String) : Response :=
  { status := status, success := false, message := message, data := none, error := none }

/-- A success response `{ success: true, message }` without `data`. -/
def ack (status : Nat) (message : String) : Response :=
  { status := status, success := true, message := message, data := none, error := none }

/-- The response `{ success: false, message, error: error.message }` with
status 500 that the outer `catch` of a handler sends. -/
def serverError (message error : String) : Response :=
  { status := 500, success := false, message := message, data := none, error := some error }

/-- The test `user.otpExpire < Date.now()`; with the field unset the comparison
is with `undefined` and is false, as it is for an Invalid Date. -/
def otpExpired (u : User) (now : Nat) : Bool :=
  match u.otpExpire with
  | some d => d.before now
  | none => false

/-- Handler `signup`: register a new user and send the OTP. Without a parsed
body the destructuring of `req.body` throws and the outer `catch` answers 500. -/
def signup (D : Deps) (env : Env) (s : Store) (reqBody : Option Body) : Outcome :=
  match reqBody with
  | none => ⟨serverError "Server error during signup" (D.destructureError "name"), s, []⟩
  | some body =>
    match present body.name, present body.email, present body.password with
    | some name, some email, some password =>
      match findOne email s with
      | some _ => ⟨fail 400 "User already exists with this email", s, []⟩
      | none =>
        let otp := generateOTP env.random
        let otpExpire := getOTPExpiration env.now env.otpExpireMinutes none
        let created := create D name email password otp otpExpire false s
        let user := created.1
        let mail := sendOTPEmail email otp name
        if env.mailOk then
          ⟨{ status := 201, success := true,
             message := "Registration successful. OTP sent to your email.",
             data := some (Payload.registered user._id user.email user.name), error := none },
           created.2, [mail]⟩
        else
          ⟨fail 500 "Error sending verification email. Please try again.",
           findByIdAndDelete user._id created.2, [mail]⟩
    | _, _, _ => ⟨fail 400 "Please provide all required fields", s, []⟩

/-- Handler `verifyOTP`: verify the OTP and activate the account. Without a
parsed body the outer `catch` answers 500. -/
def verifyOTP (D : Deps) (env : Env) (s : Store) (reqBody : Option Body) : Outcome :=
  match reqBody with
  | none =>
    ⟨serverError "Server error during OTP verification" (D.destructureError "email"), s, []⟩
  | some body =>
    match present body.email, present body.otp with
    | some email, some otp =>
      match findOne email s with
      | none => ⟨fail 404 "User not found", s, []⟩
      | some user =>
        if user.otp ≠ some otp then ⟨fail 400 "Invalid OTP", s, []⟩
        else if otpExpired user env.now then
          ⟨fail 400 "OTP has expired. Please request a new one.", s, []⟩
        else
          let s1 := save user._id
            (fun u => { u with isVerified := true, otp := none, otpExpire := none }) s
          let token := D.generateToken user._id
          ⟨{ status := 200, success := true, message := "Email verified successfully",
             data := some (Payload.session user._id user.name user.email true token),
             error := none },
           s1, []⟩
    | _, _ => ⟨fail 400 "Please provide email and OTP", s, []⟩

/-- Handler `login`: authenticate with email and password. Without a parsed
body the outer `catch` answers 500. -/
def login (D : Deps) (_env : Env) (s : Store) (reqBody : Option Body) : Outcome :=
  match reqBody with
  | none => ⟨serverError "Server error during login" (D.destructureError "email"), s, []⟩
  | some body =>
    match present body.email, present body.password with
    | some email, some password =>
      match findOne email s with
      | none => ⟨fail 401 "Invalid credentials", s, []⟩
      | some user =>
        if !user.isVerified then ⟨fail 401 "Please verify your email first", s, []⟩
        else if !D.matchPassword password user.password then
          ⟨fail 401 "Invalid credentials", s, []⟩
        else
          let token := D.generateToken user._id
          ⟨{ status := 200, success := true, message := "Login successful",
             data := some (Payload.session user._id user.name user.email user.isVerified token),
             error := none },
           s, []⟩
    | _, _ => ⟨fail 400 "Please provide email and password", s, []⟩

/-- Handler `forgotPassword`: store a new OTP and send the password reset mail.
Without a parsed body the outer `catch` answers 500. -/
def forgotPassword (D : Deps) (env : Env) (s : Store) (reqBody : Option Body) : Outcome :=
  match reqBody with
  | none => ⟨serverError "Server error" (D.destructureError "email"), s, []⟩
  | some body =>
    match present body.email with
    | some email =>
      match findOne email s with
      | none => ⟨fail 404 "No user found with this email", s, []⟩
      | some user =>
        let otp := generateOTP env.random
        let otpExpire := getOTPExpiration env.now env.otpExpireMinutes none
        let s1 := save user._id (fun u => { u with otp := some otp, otpExpire := some otpExpire }) s
        let mail := sendPasswordResetEmail email otp user.name
        if env.mailOk then ⟨ack 200 "Password reset OTP sent to your email", s1, [mail]⟩
        else
          let s2 := save user._id (fun u => { u with otp := none, otpExpire := none }) s1
          ⟨fail 500 "Error sending reset email. Please try again.", s2, [mail]⟩
    | none => ⟨fail 400 "Please provide email", s, []⟩

/-- Handler `resetPassword`: replace the password when the OTP matches. Without
a parsed body the outer `catch` answers 500. -/
def resetPassword (D : Deps) (env : Env) (s : Store) (reqBody : Option Body) : Outcome :=
  match reqBody with
  | none =>
    ⟨serverError "Server error during password reset" (D.destructureError "email"), s, []⟩
  | some body =>
    match present body.email, present body.otp, present body.newPassword with
    | some email, some otp, some newPassword =>
      match findOne email s with
      | none => ⟨fail 404 "User not found", s, []⟩
      | some user =>
        if user.otp ≠ some otp then ⟨fail 400 "Invalid OTP", s, []⟩
        else if otpExpired user env.now then
          ⟨fail 400 "OTP has expired. Please request a new one.", s, []⟩
        else
          let s1 := save user._id
            (fun u => { setPassword D newPassword u with otp := none, otpExpire := none }) s
          ⟨ack 200 "Password reset successful. You can now login with your new password.",
           s1, []⟩
    | _, _, _ => ⟨fail 400 "Please provide email, OTP, and new password", s, []⟩

/-- Handler `resendOTP`: store a new OTP for an unverified account and send it.
Without a parsed body the outer `catch` answers 500. -/
def resendOTP (D : Deps) (env : Env) (s : Store) (reqBody : Option Body) : Outcome :=
  match reqBody with
  | none => ⟨serverError "Server error" (D.destructureError "email"), s, []⟩
  | some body =>
    match present body.email with
    | some email =>
      match findOne email s with
      | none => ⟨fail 404 "User not found", s, []⟩
      | some user =>
        if user.isVerified then ⟨fail 400 "User is already verified", s, []⟩
        else
          let otp := generateOTP env.random
          let otpExpire := getOTPExpiration env.now env.otpExpireMinutes none
          let s1 := save user._id (fun u => { u with otp := some otp, otpExpire := some otpExpire }) s
          let mail := sendOTPEmail email otp user.name
          if env.mailOk then ⟨ack 200 "New OTP sent to your email", s1, [mail]⟩
          else ⟨fail 500 "Error sending OTP email. Please try again.", s1, [mail]⟩
    | none => ⟨fail 400 "Please provide email", s, []⟩

/-! ## Request bodies (values of `req.body`) -/

/-- The body `{ name, email, password }` of a signup request. -/
def signupBody (name email password : String) : Option Body :=
  some
    { name := some name, email := some email, password := some password,
      otp := none, newPassword := none }

/-- The body `{ email, otp }` of a verify-otp request. -/
def verifyBody (email otp : String) : Option Body :=
  some
    { name := none, email := some email, password := none, otp := some otp, newPassword := none }

/-- The body `{ email, password }` of a login request. -/
def loginBody (email password : String) : Option Body :=
  some
    { name := none, email := some email, password := some password,
      otp := none, newPassword := none }

/-- The body `{ email }` of a forgot-password or resend-otp request. -/
def emailBody (email : String) : Option Body :=
  some
    { name := none, email := some email, password := none, otp := none, newPassword := none }

/-- The body `{ email, otp, newPassword }` of a reset-password request. -/
def resetBody (email otp newPassword : String) : Option Body :=
  some
    { name := none, email := some email, password := none,
      otp := some otp, newPassword := some newPassword }

/-! ## The service as a whole (`routes/authRoutes.js`) -/

/-- The six operations the router exposes. -/
inductive Op where
  | signup
  | verifyOTP
  | login
  | forgotPassword
  | resetPassword
  | resendOTP
deriving DecidableEq, Repr

/-- The handler the router calls for an operation. -/
def handle (D : Deps) (op : Op) (env : Env) (s : Store) (reqBody : Option Body) : Outcome :=
  match op with
  | Op.signup => signup D env s reqBody
  | Op.verifyOTP => verifyOTP D env s reqBody
  | Op.login => login D env s reqBody
  | Op.forgotPassword => forgotPassword D env s reqBody
  | Op.resetPassword => resetPassword D env s reqBody
  | Op.resendOTP => resendOTP D env s reqBody

/-- The fields of a parsed body that the guard at the head of each handler
tests. -/
def requiredFields (op : Op) (body : Body) : List (Option String) :=
  match op with
  | Op.signup => [body.name, body.email, body.password]
  | Op.verifyOTP => [body.email, body.otp]
  | Op.login => [body.email, body.password]
  | Op.forgotPassword => [body.email]
  | Op.resetPassword => [body.email, body.otp, body.newPassword]
  | Op.resendOTP => [body.email]

/-- The message of the 400 response each guard sends. -/
def validationMessage (op : Op) : String :=
  match op with
  | Op.signup => "Please provide all required fields"
  | Op.verifyOTP => "Please provide email and OTP"
  | Op.login => "Please provide email and password"
  | Op.forgotPassword => "Please provide email"
  | Op.resetPassword => "Please provide email, OTP, and new password"
  | Op.resendOTP => "Please provide email"

/-- The message of the 500 response the outer `catch` of each handler sends. -/
def serverErrorMessage (op : Op) : String :=
  match op with
  | Op.signup => "Server error during signup"
  | Op.verifyOTP => "Server error during OTP verification"
  | Op.login => "Server error during login"
  | Op.forgotPassword => "Server error"
  | Op.resetPassword => "Server error during password reset"
  | Op.resendOTP => "Server error"

/-- The first property each handler destructures from `req.body`. -/
def firstProperty (op : Op) : String :=
  match op with
  | Op.signup => "name"
  | _ => "email"

/-- One request: the operation, the environment of the call and the value of
`req.body`. -/
structure Call where
  op : Op
  env : Env
  body : Option Body

/-- The store after a sequence of requests, handled one at a time. -/
def run (D : Deps) (calls : List Call) (s : Store) : Store :=
  calls.foldl (fun st c => (handle D c.op c.env st c.body).store) s

/-! ## Sample data -/

/-- A hash that prefixes the password, its check, a token issuer and an
exception text: one instance of the collaborators. -/
def demoDeps : Deps :=
  { hash := fun p => "h:" ++ p
    matchPassword := fun p h => h == "h:" ++ p
    generateToken := fun id => "token-" ++ toString id
    destructureError := fun property =>
      "Cannot destructure property '" ++ property ++ "' of 'req.body' as it is undefined." }

/-- A call at clock 1000 with the draw 0, the default validity and a mailer
that delivers. -/
def demoEnv : Env :=
  { now := 1000, random := 0, otpExpireMinutes := none, mailOk := true }

/-- The call `demoEnv` with a mailer that throws. -/
def demoEnvMailDown : Env :=
  { now := 1000, random := 0, otpExpireMinutes := none, mailOk := false }

/-- An unverified account with a pending code. -/
def aliceUnverified : User :=
  { _id := 1, name := "Alice", email := "alice@x.com", password := "h:pw123",
    otp := some "123456", otpExpire := some (JsDate.valid 601000), isVerified := false }

/-- A verified account with a pending code. -/
def aliceVerified : User :=
  { _id := 1, name := "Alice", email := "alice@x.com", password := "h:pw123",
    otp := some "123456", otpExpire := some (JsDate.valid 601000), isVerified := true }

/-- A second, unverified account with a pending code. -/
def bobUnverified : User :=
  { _id := 2, name := "Bob", email := "bob@x.com", password := "h:secret",
    otp := some "654321", otpExpire := some (JsDate.valid 601000), isVerified := false }

/-! ## Lemmas on the generator and the collection -/

theorem repr_ne_empty (n : Nat) : Nat.repr n ≠ "" := by
  have hlen : 0 < (Nat.toDigits 10 n).length := by
    unfold Nat.toDigits
    rw [Nat.toDigitsCore]
    split
    · simp
    · rw [Nat.toDigitsCore_lens_eq]; omega
  intro h
  have h2 : (Nat.repr n).data = [] := by rw [h]
  simp [Nat.repr, List.asString] at h2
  rw [h2] at hlen
  simp at hlen

theorem generateOTP_ne_empty (random : Nat) : generateOTP random ≠ "" := by
  unfold generateOTP
  exact repr_ne_empty _

theorem present_some {v : String} (h : v ≠ "") : present (some v) = some v := by
  simp [present, h]

theorem present_empty : present (some "") = none := by
  simp [present]

theorem id_lt_freshId {s : Store} {u : User} (h : u ∈ s) : u._id < freshId s := by
  induction s with
  | nil => simp at h
  | cons a t ih =>
    simp only [freshId, List.map_cons, List.foldr_cons] at ih ⊢
    rcases List.mem_cons.mp h with rfl | h
    · omega
    · have := ih h
      omega

theorem findOne_append_of_none {email : String} {s : Store} (u : User)
    (h : findOne email s = none) (hu : u.email = email) :
    findOne email (s ++ [u]) = some u := by
  unfold findOne at *
  rw [List.find?_append, h]
  simp [hu]

theorem save_fresh (s : Store) (f : User → User) (u : User) (hu : u._id = freshId s) :
    save (freshId s) f (s ++ [u]) = s ++ [f u] := by
  unfold save
  rw [List.map_append]
  congr 1
  · conv_rhs => rw [← List.map_id s]
    apply List.map_congr_left
    intro a ha
    have := id_lt_freshId ha
    have hne : a._id ≠ freshId s := by omega
    simp [hne]
  · simp [hu]

theorem delete_fresh (s : Store) (u : User) (hu : u._id = freshId s) :
    findByIdAndDelete (freshId s) (s ++ [u]) = s := by
  unfold findByIdAndDelete
  rw [List.filter_append]
  have h1 : s.filter (fun a => a._id != freshId s) = s := by
    apply List.filter_eq_self.mpr
    intro a ha
    have := id_lt_freshId ha
    have hne : a._id ≠ freshId s := by omega
    simp [hne]
  rw [h1]
  simp [hu]

theorem findOne_save {email : String} {s : Store} {u : User} (f : User → User)
    (hf : ∀ r, (f r).email = r.email) (h : findOne email s = some u) :
    findOne email (save u._id f s) = some (f u) := by
  induction s with
  | nil => simp [findOne] at h
  | cons a t ih =>
    unfold findOne save at *
    simp only [List.map_cons, List.find?_cons] at h ⊢
    by_cases ha : a.email = email
    · simp only [ha, beq_self_eq_true] at h
      injection h with h
      subst h
      simp [hf, ha]
    · have hb : (a.email == email) = false := by simpa using ha
      rw [hb] at h
      have hb2 : ((if a._id = u._id then f a else a).email == email) = false := by
        split <;> simpa [hf] using ha
      rw [hb2]
      exact ih h

theorem findOne_email {email : String} {s : Store} {u : User} (h : findOne email s = some u) :
    u.email = email := by
  unfold findOne at h
  have := List.find?_some h
  simpa using this

/-! ## Lemmas on the handlers -/

theorem signup_fresh_eq (D : Deps) (env : Env) (s : Store) (name email password : String)
    (hn : name ≠ "") (he : email ≠ "") (hp : password ≠ "") (hnew : findOne email s = none) :
    signup D env s (signupBody name email password) =
      (if env.mailOk then
        ⟨{ status := 201, success := true,
           message := "Registration successful. OTP sent to your email.",
           data := some (Payload.registered (freshId s) email name), error := none },
         s ++ [{ _id := freshId s, name := name, email := email, password := D.hash password,
                 otp := some (generateOTP env.random),
                 otpExpire := some (getOTPExpiration env.now env.otpExpireMinutes none),
                 isVerified := false }],
         [sendOTPEmail email (generateOTP env.random) name]⟩
      else
        ⟨fail 500 "Error sending verification email. Please try again.", s,
         [sendOTPEmail email (generateOTP env.random) name]⟩) := by
  simp only [signup, signupBody, present_some hn, present_some he, present_some hp, hnew, create, setPassword]
  split
  · rfl
  · rw [delete_fresh s _ rfl]

theorem verifyOTP_eq (D : Deps) (env : Env) (s : Store) (email code : String) (u : User)
    (he : email ≠ "") (hc : code ≠ "") (hex : findOne email s = some u) :
    verifyOTP D env s (verifyBody email code) =
      (if u.otp ≠ some code then ⟨fail 400 "Invalid OTP", s, []⟩
       else if otpExpired u env.now then
         ⟨fail 400 "OTP has expired. Please request a new one.", s, []⟩
       else
         ⟨{ status := 200, success := true, message := "Email verified successfully",
            data := some (Payload.session u._id u.name u.email true (D.generateToken u._id)),
            error := none },
          save u._id (fun r => { r with isVerified := true, otp := none, otpExpire := none }) s,
          []⟩) := by
  simp only [verifyOTP, verifyBody, present_some he, present_some hc, hex]

theorem signup_existing_eq (D : Deps) (env : Env) (s : Store)
    (name email password : String) (u : User)
    (hn : name ≠ "") (he : email ≠ "") (hp : password ≠ "")
    (hex : findOne email s = some u) :
    signup D env s (signupBody name email password)
      = ⟨fail 400 "User already exists with this email", s, []⟩ := by
  simp only [signup, signupBody, present_some hn, present_some he, present_some hp, hex]

theorem resetPassword_eq (D : Deps) (env : Env) (s : Store) (email code newPassword : String)
    (u : User) (he : email ≠ "") (hc : code ≠ "") (hp : newPassword ≠ "")
    (hex : findOne email s = some u) :
    resetPassword D env s (resetBody email code newPassword) =
      (if u.otp ≠ some code then ⟨fail 400 "Invalid OTP", s, []⟩
       else if otpExpired u env.now then
         ⟨fail 400 "OTP has expired. Please request a new one.", s, []⟩
       else
         ⟨ack 200 "Password reset successful. You can now login with your new password.",
          save u._id
            (fun r => { r with password := D.hash newPassword, otp := none, otpExpire := none }) s,
          []⟩) := by
  simp only [resetPassword, resetBody, present_some he, present_some hc, present_some hp, hex,
    setPassword]

theorem login_eq (D : Deps) (env : Env) (s : Store) (email password : String) (u : User)
    (he : email ≠ "") (hp : password ≠ "") (hex : findOne email s = some u) :
    login D env s (loginBody email password) =
      (if !u.isVerified then ⟨fail 401 "Please verify your email first", s, []⟩
       else if !D.matchPassword password u.password then ⟨fail 401 "Invalid credentials", s, []⟩
       else
         ⟨{ status := 200, success := true, message := "Login successful",
            data := some (Payload.session u._id u.name u.email u.isVerified
              (D.generateToken u._id)),
            error := none },
          s, []⟩) := by
  simp only [login, loginBody, present_some he, present_some hp, hex]

theorem demoDeps_matches (p q : String) :
    demoDeps.matchPassword p (demoDeps.hash q) = true ↔ p = q := by
  simp only [demoDeps, beq_iff_eq]
  constructor
  · intro h
    have h2 := congrArg String.data h
    simp only [String.data_append] at h2
    exact String.ext ((List.append_cancel_left h2).symm)
  · intro h; rw [h]

theorem login_empty_password (D : Deps) (env : Env) (s : Store) (email : String) :
    login D env s (loginBody email "")
      = ⟨fail 400 "Please provide email and password", s, []⟩ := by
  by_cases he : email = ""
  · subst he; simp only [login, loginBody, present_empty]
  · simp only [login, loginBody, present_some he, present_empty]

theorem verifyOTP_success_inv (D : Deps) (env : Env) (s : Store) (email code : String)
    (h : (verifyOTP D env s (verifyBody email code)).res.status = 200) :
    email ≠ "" ∧ code ≠ "" ∧ ∃ u, findOne email s = some u ∧ u.otp = some code ∧
      otpExpired u env.now = false ∧
      (verifyOTP D env s (verifyBody email code)).store
        = save u._id (fun r => { r with isVerified := true, otp := none, otpExpire := none }) s := by
  by_cases he : email = ""
  · subst he; simp [verifyOTP, verifyBody, present_empty, fail] at h
  by_cases hc : code = ""
  · subst hc; simp [verifyOTP, verifyBody, present_some he, present_empty, fail] at h
  cases hex : findOne email s with
  | none => simp [verifyOTP, verifyBody, present_some he, present_some hc, hex, fail] at h
  | some u =>
    rw [verifyOTP_eq D env s email code u he hc hex] at h ⊢
    by_cases hne : u.otp = some code
    · rw [if_neg (not_not.mpr hne)] at h ⊢
      cases hx : otpExpired u env.now with
      | true => rw [hx] at h; simp [fail] at h
      | false => exact ⟨he, hc, u, rfl, hne, hx, by simp [hx]⟩
    · rw [if_pos hne] at h; simp [fail] at h

theorem resetPassword_success_inv (D : Deps) (env : Env) (s : Store)
    (email code newPassword : String)
    (h : (resetPassword D env s (resetBody email code newPassword)).res.status = 200) :
    email ≠ "" ∧ code ≠ "" ∧ newPassword ≠ "" ∧ ∃ u, findOne email s = some u ∧
      u.otp = some code ∧ otpExpired u env.now = false ∧
      (resetPassword D env s (resetBody email code newPassword)).store
        = save u._id
            (fun r => { r with password := D.hash newPassword, otp := none, otpExpire := none })
            s := by
  by_cases he : email = ""
  · subst he; simp [resetPassword, resetBody, present_empty, fail] at h
  by_cases hc : code = ""
  · subst hc; simp [resetPassword, resetBody, present_some he, present_empty, fail] at h
  by_cases hp : newPassword = ""
  · subst hp
    simp [resetPassword, resetBody, present_some he, present_some hc, present_empty, fail] at h
  cases hex : findOne email s with
  | none =>
    simp [resetPassword, resetBody, present_some he, present_some hc, present_some hp, hex,
      fail] at h
  | some u =>
    rw [resetPassword_eq D env s email code newPassword u he hc hp hex] at h ⊢
    by_cases hne : u.otp = some code
    · rw [if_neg (not_not.mpr hne)] at h ⊢
      cases hx : otpExpired u env.now with
      | true => rw [hx] at h; simp [fail] at h
      | false => exact ⟨he, hc, hp, u, rfl, hne, hx, by simp [hx]⟩
    · rw [if_pos hne] at h; simp [fail] at h

theorem no_pending_otp_rejected (D : Deps) (env : Env) (s : Store) (email code : String)
    (u : User) (he : email ≠ "") (hc : code ≠ "") (hex : findOne email s = some u)
    (hnone : u.otp = none) :
    verifyOTP D env s (verifyBody email code) = ⟨fail 400 "Invalid OTP", s, []⟩ ∧
    ∀ newPassword : String, newPassword ≠ "" →
      resetPassword D env s (resetBody email code newPassword)
        = ⟨fail 400 "Invalid OTP", s, []⟩ := by
  have hne : u.otp ≠ some code := by rw [hnone]; exact fun h => Option.noConfusion h
  refine ⟨?_, fun np hnp => ?_⟩
  · rw [verifyOTP_eq D env s email code u he hc hex, if_pos hne]
  · rw [resetPassword_eq D env s email code np u he hc hnp hex, if_pos hne]

/-! ## Lemmas on the store under the handlers -/

theorem forgotPassword_eq (D : Deps) (env : Env) (s : Store) (email : String) (u : User)
    (he : email ≠ "") (hex : findOne email s = some u) :
    forgotPassword D env s (emailBody email) =
      (if env.mailOk then
        ⟨ack 200 "Password reset OTP sent to your email",
         save u._id (fun r => { r with
      otp := some (generateOTP env.random)
      otpExpire := some (getOTPExpiration env.now env.otpExpireMinutes none) }) s,
         [sendPasswordResetEmail email (generateOTP env.random) u.name]⟩
      else
        ⟨fail 500 "Error sending reset email. Please try again.",
         save u._id (fun r => { r with otp := none, otpExpire := none })
           (save u._id (fun r => { r with
      otp := some (generateOTP env.random)
      otpExpire := some (getOTPExpiration env.now env.otpExpireMinutes none) }) s),
         [sendPasswordResetEmail email (generateOTP env.random) u.name]⟩) := by
  simp only [forgotPassword, emailBody, present_some he, hex]

theorem resendOTP_eq (D : Deps) (env : Env) (s : Store) (email : String) (u : User)
    (he : email ≠ "") (hex : findOne email s = some u) :
    resendOTP D env s (emailBody email) =
      (if u.isVerified then ⟨fail 400 "User is already verified", s, []⟩
       else if env.mailOk then
        ⟨ack 200 "New OTP sent to your email",
         save u._id (fun r => { r with
      otp := some (generateOTP env.random)
      otpExpire := some (getOTPExpiration env.now env.otpExpireMinutes none) }) s,
         [sendOTPEmail email (generateOTP env.random) u.name]⟩
      else
        ⟨fail 500 "Error sending OTP email. Please try again.",
         save u._id (fun r => { r with
      otp := some (generateOTP env.random)
      otpExpire := some (getOTPExpiration env.now env.otpExpireMinutes none) }) s,
         [sendOTPEmail email (generateOTP env.random) u.name]⟩) := by
  simp only [resendOTP, emailBody, present_some he, hex]

theorem forgotPassword_mail_failure_find (D : Deps) (env : Env) (s : Store) (email : String)
    (u : User) (he : email ≠ "") (hex : findOne email s = some u) (hmail : env.mailOk = false) :
    (forgotPassword D env s (emailBody email)).res
      = fail 500 "Error sending reset email. Please try again." ∧
    (forgotPassword D env s (emailBody email)).mails
      = [sendPasswordResetEmail email (generateOTP env.random) u.name] ∧
    findOne email (forgotPassword D env s (emailBody email)).store
      = some { u with otp := none, otpExpire := none } := by
  rw [forgotPassword_eq D env s email u he hex, if_neg (by simp [hmail])]
  refine ⟨rfl, rfl, ?_⟩
  have h1 := findOne_save (fun r : User => { r with
      otp := some (generateOTP env.random)
      otpExpire := some (getOTPExpiration env.now env.otpExpireMinutes none) }) (fun _ => rfl) hex
  have h2 := findOne_save (fun r : User => { r with otp := none, otpExpire := none })
    (fun _ => rfl) h1
  exact h2

theorem present_eq_none_iff (f : Option String) : present f = none ↔ f = none ∨ f = some "" := by
  cases f with
  | none => simp [present]
  | some v => by_cases h : v = "" <;> simp [present, h]

theorem findOne_set_otp {email : String} {s : Store} {u : User} (env : Env)
    (hex : findOne email s = some u) :
    findOne email (save u._id (fun r => { r with
      otp := some (generateOTP env.random)
      otpExpire := some (getOTPExpiration env.now env.otpExpireMinutes none) }) s)
    = some { u with
      otp := some (generateOTP env.random)
      otpExpire := some (getOTPExpiration env.now env.otpExpireMinutes none) } :=
  findOne_save (fun r : User => { r with
      otp := some (generateOTP env.random)
      otpExpire := some (getOTPExpiration env.now env.otpExpireMinutes none) })
    (fun _ => rfl) hex

theorem save_save (id : Nat) (f g : User → User) (s : Store) (hf : ∀ r, (f r)._id = r._id) :
    save id g (save id f s) = save id (fun r => g (f r)) s := by
  unfold save
  rw [List.map_map]
  apply List.map_congr_left
  intro r _
  by_cases h : r._id = id
  · simp [h, hf]
  · simp [h]

theorem signup_store_shape (D : Deps) (env : Env) (s : Store) (req : Option Body) :
    (signup D env s req).store = s ∨
    (∃ body e r, req = some body ∧ present body.email = some e ∧ findOne e s = none ∧
      r.email = e ∧ r.isVerified = false ∧ r._id = freshId s ∧
      (signup D env s req).store = s ++ [r]) := by
  unfold signup
  split
  · exact Or.inl rfl
  · next body =>
    split
    · next name email password hn he hp =>
      split
      · exact Or.inl rfl
      · next hnone =>
        simp only [create, setPassword]
        split
        · exact Or.inr ⟨body, email, _, rfl, he, hnone, rfl, rfl, rfl, rfl⟩
        · left
          exact delete_fresh s _ rfl
    · exact Or.inl rfl

theorem handle_store_shape (D : Deps) (op : Op) (env : Env) (s : Store) (req : Option Body) :
    (handle D op env s req).store = s ∨
    (∃ body e u f, req = some body ∧ present body.email = some e ∧ findOne e s = some u ∧
      (∀ r : User, (f r)._id = r._id ∧ (f r).email = r.email ∧
        ((f r).isVerified = r.isVerified ∨
          ((f r).isVerified = true ∧ op = Op.verifyOTP ∧
            (handle D op env s req).res.status = 200))) ∧
      (handle D op env s req).store = save u._id f s) ∨
    (∃ body e r, req = some body ∧ op = Op.signup ∧ present body.email = some e ∧
      findOne e s = none ∧ r.email = e ∧
      r.isVerified = false ∧ r._id = freshId s ∧ (handle D op env s req).store = s ++ [r]) := by
  cases op
  · rcases signup_store_shape D env s req with h | ⟨body, e, r, h0, h1, h2, h3, h4, h5, h6⟩
    · exact Or.inl h
    · exact Or.inr (Or.inr ⟨body, e, r, h0, rfl, h1, h2, h3, h4, h5, h6⟩)
  · simp only [handle]
    unfold verifyOTP
    split
    · exact Or.inl rfl
    · next body =>
      split
      · next email otp he ho =>
        split
        · exact Or.inl rfl
        · next user hex =>
          split
          · exact Or.inl rfl
          · split
            · exact Or.inl rfl
            · exact Or.inr (Or.inl ⟨body, email, user,
                (fun r => { r with isVerified := true, otp := none, otpExpire := none }),
                rfl, he, hex,
                fun r => ⟨rfl, rfl,
                  Or.inr (by refine ⟨rfl, ?_, ?_⟩ <;> first | rfl | trivial)⟩, rfl⟩)
      · exact Or.inl rfl
  · left
    simp only [handle]
    unfold login
    split
    · rfl
    · split
      · split
        · rfl
        · split
          · rfl
          · split <;> rfl
      · rfl
  · simp only [handle]
    unfold forgotPassword
    split
    · exact Or.inl rfl
    · next body =>
      split
      · next email he =>
        split
        · exact Or.inl rfl
        · next user hex =>
          simp only
          split
          · exact Or.inr (Or.inl ⟨body, email, user,
              (fun r => { r with
                  otp := some (generateOTP env.random)
                  otpExpire := some (getOTPExpiration env.now env.otpExpireMinutes none) }), rfl, he, hex,
              fun r => ⟨rfl, rfl, Or.inl rfl⟩, rfl⟩)
          · refine Or.inr (Or.inl ⟨body, email, user,
              (fun r => { r with otp := none, otpExpire := none }), rfl, he, hex,
              fun r => ⟨rfl, rfl, Or.inl rfl⟩, ?_⟩)
            show save _ _ (save _ _ _) = _
            apply save_save
            intro r
            rfl
      · exact Or.inl rfl
  · simp only [handle]
    unfold resetPassword
    split
    · exact Or.inl rfl
    · next body =>
      split
      · next email otp np he ho hn =>
        split
        · exact Or.inl rfl
        · next user hex =>
          split
          · exact Or.inl rfl
          · split
            · exact Or.inl rfl
            · exact Or.inr (Or.inl ⟨body, email, user,
                (fun r => { setPassword D np r with otp := none, otpExpire := none }),
                rfl, he, hex,
                fun r => ⟨rfl, rfl, Or.inl rfl⟩, rfl⟩)
      · exact Or.inl rfl
  · simp only [handle]
    unfold resendOTP
    split
    · exact Or.inl rfl
    · next body =>
      split
      · next email he =>
        split
        · exact Or.inl rfl
        · next user hex =>
          split
          · exact Or.inl rfl
          · simp only
            split
            · exact Or.inr (Or.inl ⟨body, email, user,
                (fun r => { r with
                  otp := some (generateOTP env.random)
                  otpExpire := some (getOTPExpiration env.now env.otpExpireMinutes none) }), rfl, he, hex,
                fun r => ⟨rfl, rfl, Or.inl rfl⟩, rfl⟩)
            · exact Or.inr (Or.inl ⟨body, email, user,
                (fun r => { r with
                  otp := some (generateOTP env.random)
                  otpExpire := some (getOTPExpiration env.now env.otpExpireMinutes none) }), rfl, he, hex,
                fun r => ⟨rfl, rfl, Or.inl rfl⟩, rfl⟩)
      · exact Or.inl rfl

theorem mem_of_findOne {email : String} {s : Store} {u : User} (h : findOne email s = some u) :
    u ∈ s :=
  List.mem_of_find?_eq_some h

theorem email_not_mem_of_findOne_none {email : String} {s : Store}
    (h : findOne email s = none) : email ∉ s.map (fun u => u.email) := by
  unfold findOne at h
  rw [List.find?_eq_none] at h
  intro hmem
  obtain ⟨u, hu, he⟩ := List.mem_map.mp hmem
  exact h u hu (by simpa using he)

theorem map_email_save (id : Nat) (f : User → User) (s : Store)
    (hf : ∀ r, (f r).email = r.email) :
    (save id f s).map (fun u => u.email) = s.map (fun u => u.email) := by
  unfold save
  rw [List.map_map]
  apply List.map_congr_left
  intro r _
  by_cases h : r._id = id <;> simp [h, hf]

theorem map_id_save (id : Nat) (f : User → User) (s : Store)
    (hf : ∀ r, (f r)._id = r._id) :
    (save id f s).map (fun u => u._id) = s.map (fun u => u._id) := by
  unfold save
  rw [List.map_map]
  apply List.map_congr_left
  intro r _
  by_cases h : r._id = id <;> simp [h, hf]

theorem present_of_some {e e2 : String} (h : present (some e) = some e2) : e2 = e := by
  by_cases he : e = ""
  · subst he; rw [present_empty] at h; exact Option.noConfusion h
  · rw [present_some he] at h; exact (Option.some.inj h).symm

theorem present_none : present none = none := rfl

theorem filter_save (id : Nat) (f : User → User) (e : String) (s : Store)
    (hid : ∀ r ∈ s, r._id = id → r.email = e) (hf : ∀ r, (f r).email = r.email) :
    (save id f s).filter (fun r => r.email != e) = s.filter (fun r => r.email != e) := by
  induction s with
  | nil => rfl
  | cons a t ih =>
    have iht := ih (fun r hr => hid r (List.mem_cons_of_mem _ hr))
    unfold save at iht ⊢
    rw [List.map_cons]
    by_cases ha : a._id = id
    · have hae : a.email = e := hid a (List.mem_cons_self _ _) ha
      have hfe : (f a).email = e := by rw [hf, hae]
      simp only [ha, if_true]
      rw [List.filter_cons_of_neg (by simp [hfe]), List.filter_cons_of_neg (by simp [hae])]
      exact iht
    · simp only [ha, if_false]
      by_cases hk : a.email = e
      · rw [List.filter_cons_of_neg (by simp [hk]), List.filter_cons_of_neg (by simp [hk])]
        exact iht
      · rw [List.filter_cons_of_pos (by simp [hk]), List.filter_cons_of_pos (by simp [hk]), iht]

theorem handle_preserves_unique_emails (D : Deps) (op : Op) (env : Env) (s : Store)
    (req : Option Body) (h : (s.map (fun u => u.email)).Nodup) :
    ((handle D op env s req).store.map (fun u => u.email)).Nodup := by
  rcases handle_store_shape D op env s req with hs | ⟨_, e, u, f, _, _, _, hf, hs⟩ |
      ⟨_, e, r, _, _, _, hnone, hre, _, _, hs⟩
  · rw [hs]; exact h
  · rw [hs, map_email_save _ _ _ (fun r => (hf r).2.1)]; exact h
  · rw [hs, List.map_append, List.map_singleton]
    refine List.Nodup.append h (List.nodup_singleton _) ?_
    rw [List.disjoint_singleton, hre]
    exact email_not_mem_of_findOne_none hnone

theorem handle_preserves_unique_ids (D : Deps) (op : Op) (env : Env) (s : Store)
    (req : Option Body) (h : (s.map (fun u => u._id)).Nodup) :
    ((handle D op env s req).store.map (fun u => u._id)).Nodup := by
  rcases handle_store_shape D op env s req with hs | ⟨_, e, u, f, _, _, _, hf, hs⟩ |
      ⟨_, e, r, _, _, _, _, _, _, hid, hs⟩
  · rw [hs]; exact h
  · rw [hs, map_id_save _ _ _ (fun r => (hf r).1)]; exact h
  · rw [hs, List.map_append, List.map_singleton]
    refine List.Nodup.append h (List.nodup_singleton _) ?_
    rw [List.disjoint_singleton, hid]
    intro hmem
    obtain ⟨v, hv, hve⟩ := List.mem_map.mp hmem
    have := id_lt_freshId hv
    omega

theorem run_preserves_unique_emails (D : Deps) (calls : List Call) (s : Store)
    (h : (s.map (fun u => u.email)).Nodup) :
    ((run D calls s).map (fun u => u.email)).Nodup := by
  induction calls generalizing s with
  | nil => exact h
  | cons c cs ih =>
    simp only [run, List.foldl_cons]
    exact ih _ (handle_preserves_unique_emails D c.op c.env s c.body h)

theorem missing_field_eq (D : Deps) (op : Op) (env : Env) (s : Store) (body : Body)
    (hmiss : ∃ f ∈ requiredFields op body, f = none ∨ f = some "") :
    handle D op env s (some body) = ⟨fail 400 (validationMessage op), s, []⟩ := by
  obtain ⟨f, hf, hnone⟩ := hmiss
  rw [← present_eq_none_iff] at hnone
  cases op <;>
    simp only [requiredFields, List.mem_cons, List.mem_singleton, List.not_mem_nil,
      or_false] at hf
  · simp only [handle, signup, validationMessage]
    rcases hf with rfl | rfl | rfl
    · rw [hnone]
    · rw [hnone]; cases present body.name <;> rfl
    · rw [hnone]; cases present body.name <;> cases present body.email <;> rfl
  · simp only [handle, verifyOTP, validationMessage]
    rcases hf with rfl | rfl
    · rw [hnone]
    · rw [hnone]; cases present body.email <;> rfl
  · simp only [handle, login, validationMessage]
    rcases hf with rfl | rfl
    · rw [hnone]
    · rw [hnone]; cases present body.email <;> rfl
  · simp only [handle, forgotPassword, validationMessage]
    subst hf
    rw [hnone]
  · simp only [handle, resetPassword, validationMessage]
    rcases hf with rfl | rfl | rfl
    · rw [hnone]
    · rw [hnone]; cases present body.email <;> rfl
    · rw [hnone]; cases present body.email <;> cases present body.otp <;> rfl
  · simp only [handle, resendOTP, validationMessage]
    subst hf
    rw [hnone]

theorem bodyless_eq (D : Deps) (op : Op) (env : Env) (s : Store) :
    handle D op env s none
      = ⟨serverError (serverErrorMessage op) (D.destructureError (firstProperty op)), s, []⟩ := by
  cases op <;> rfl

theorem getOTPExpiration_in_range (now : Nat) (configured minutes : Option Nat)
    (h : now + (minutes.getD (configured.getD 10)) * 60 * 1000 ≤ maxTimeValue) :
    getOTPExpiration now configured minutes
      = JsDate.valid (now + (minutes.getD (configured.getD 10)) * 60 * 1000) := by
  cases minutes <;> simp only [getOTPExpiration, newDate, Option.getD] at h ⊢ <;> rw [if_pos h]

/-! ## Lemmas on double rounding and decimal strings -/

theorem log2_eq_of_bounds {x j : Nat} (h1 : 2 ^ j ≤ x) (h2 : x < 2 ^ (j + 1)) :
    Nat.log2 x = j := by
  have hx : x ≠ 0 := by
    have : 0 < 2 ^ j := Nat.pow_pos (by decide)
    omega
  have ha : j ≤ Nat.log2 x := (Nat.le_log2 hx).mpr h1
  have hb : Nat.log2 x < j + 1 := (Nat.log2_lt hx).mpr h2
  omega

theorem round_to_grid (x G c : Nat) (hG : 0 < G) :
    (x ≤ c * G →
      (if 2 * (x % G) < G then x / G * G
        else if 2 * (x % G) = G ∧ x / G % 2 = 0 then x / G * G else (x / G + 1) * G) ≤ c * G) ∧
    (c * G ≤ x →
      c * G ≤ (if 2 * (x % G) < G then x / G * G
        else if 2 * (x % G) = G ∧ x / G % 2 = 0 then x / G * G else (x / G + 1) * G)) := by
  have hdm : x / G * G + x % G = x := by rw [Nat.mul_comm]; exact Nat.div_add_mod x G
  have hqle : x / G * G ≤ x := Nat.div_mul_le_self x G
  constructor
  · intro hx
    have hup : 0 < x % G → (x / G + 1) * G ≤ c * G := by
      intro hr
      have hlt : x / G * G < c * G := by omega
      have hq : x / G < c := Nat.lt_of_mul_lt_mul_right hlt
      exact Nat.mul_le_mul_right G hq
    split
    · omega
    · split
      · omega
      · apply hup; omega
  · intro hx
    have hq : c ≤ x / G := (Nat.le_div_iff_mul_le hG).mpr hx
    have h1 : c * G ≤ x / G * G := Nat.mul_le_mul_right G hq
    have h2 : x / G * G ≤ (x / G + 1) * G := Nat.mul_le_mul_right G (Nat.le_succ _)
    split
    · exact h1
    · split
      · exact h1
      · omega

theorem roundDouble_grid (x m : Nat) (hx : x < 2 ^ 73) (hm : 2 ^ 20 ∣ m) :
    (x ≤ m → roundDouble x ≤ m) ∧ (m ≤ x → m ≤ roundDouble x) := by
  unfold roundDouble
  by_cases hsmall : x < 2 ^ 53
  · simp only [hsmall, if_true]
    exact ⟨id, id⟩
  · simp only [hsmall, if_false]
    have hx0 : x ≠ 0 := by omega
    have hlog : Nat.log2 x < 73 := (Nat.log2_lt hx0).mpr hx
    have he : Nat.log2 x - 52 ≤ 20 := by omega
    obtain ⟨c, hc⟩ := hm
    have hpow : (2 : Nat) ^ 20 = 2 ^ (20 - (Nat.log2 x - 52)) * 2 ^ (Nat.log2 x - 52) := by
      rw [← Nat.pow_add]
      congr 1
      omega
    have hmc : m = (c * 2 ^ (20 - (Nat.log2 x - 52))) * 2 ^ (Nat.log2 x - 52) := by
      rw [hc, hpow]
      ring
    rw [hmc]
    exact round_to_grid x (2 ^ (Nat.log2 x - 52)) _ (Nat.pow_pos (by decide))

theorem roundDouble_top (x : Nat) (h1 : 2 ^ 72 ≤ x) (h2 : x < 2 ^ 73) :
    roundDouble x =
      (if 2 * (x % 2 ^ 20) < 2 ^ 20 then x / 2 ^ 20 * 2 ^ 20
        else if 2 * (x % 2 ^ 20) = 2 ^ 20 ∧ x / 2 ^ 20 % 2 = 0 then x / 2 ^ 20 * 2 ^ 20
        else (x / 2 ^ 20 + 1) * 2 ^ 20) := by
  have hlog : Nat.log2 x = 72 := log2_eq_of_bounds h1 h2
  have hbig : ¬ x < 2 ^ 53 := by omega
  unfold roundDouble
  simp only [hbig, if_false, hlog]

theorem dvd_mul_pow53 (a : Nat) : 2 ^ 20 ∣ a * 2 ^ 53 :=
  ⟨a * 2 ^ 33, by omega⟩

theorem otpNumber_near_exact (k : Nat) (hk : k < 2 ^ 53) :
    exactFloorOTP k ≤ otpNumber k ∧ otpNumber k ≤ exactFloorOTP k + 1 := by
  unfold otpNumber exactFloorOTP
  have hp : k * 900000 < 2 ^ 73 := by omega
  have ha1 : k * 900000 / 2 ^ 53 * 2 ^ 53 ≤ k * 900000 := by omega
  have ha2 : k * 900000 ≤ (k * 900000 / 2 ^ 53 + 1) * 2 ^ 53 := by omega
  have ha3 : k * 900000 / 2 ^ 53 ≤ 899999 := by omega
  have hP1 := (roundDouble_grid (k * 900000) _ hp (dvd_mul_pow53 _)).2 ha1
  have hP2 := (roundDouble_grid (k * 900000) _ hp (dvd_mul_pow53 _)).1 ha2
  generalize k * 900000 / 2 ^ 53 = a at ha3 hP1 hP2 ⊢
  generalize roundDouble (k * 900000) = P at hP1 hP2 ⊢
  have hS : 100000 * 2 ^ 53 + P < 2 ^ 73 := by omega
  have hS1 := (roundDouble_grid (100000 * 2 ^ 53 + P) _ hS (dvd_mul_pow53 (100000 + a))).2
    (by omega)
  have hS2 := (roundDouble_grid (100000 * 2 ^ 53 + P) _ hS (dvd_mul_pow53 (100000 + a + 1))).1
    (by omega)
  generalize roundDouble (100000 * 2 ^ 53 + P) = R at hS1 hS2 ⊢
  omega

theorem otpNumber_ge (k : Nat) (hk : k < 2 ^ 53) : 100000 ≤ otpNumber k := by
  have h := (otpNumber_near_exact k hk).1
  unfold exactFloorOTP at h
  omega

theorem otpNumber_le (k : Nat) (hk : k < 2 ^ 53) : otpNumber k ≤ 999999 := by
  by_cases ha : k * 900000 / 2 ^ 53 ≤ 899998
  · have h := (otpNumber_near_exact k hk).2
    unfold exactFloorOTP at h
    omega
  · unfold otpNumber
    have hp1 : 2 ^ 72 ≤ k * 900000 := by omega
    have hp2 : k * 900000 < 2 ^ 73 := by omega
    have hP : roundDouble (k * 900000) ≤ 900000 * 2 ^ 53 - 2 ^ 20 := by
      rw [roundDouble_top _ hp1 hp2]
      have hdm : k * 900000 / 2 ^ 20 * 2 ^ 20 + k * 900000 % 2 ^ 20 = k * 900000 := by
        rw [Nat.mul_comm]; exact Nat.div_add_mod _ _
      have hle : k * 900000 ≤ 900000 * 2 ^ 53 - 900000 := by omega
      generalize k * 900000 / 2 ^ 20 = q at hdm ⊢
      generalize k * 900000 % 2 ^ 20 = r at hdm ⊢
      generalize k * 900000 = p at hdm hle
      by_cases hr : 2 * r < 2 ^ 20
      · rw [if_pos hr]; omega
      · rw [if_neg hr]
        split <;> omega
    generalize roundDouble (k * 900000) = P at hP ⊢
    have hS : 100000 * 2 ^ 53 + P < 2 ^ 73 := by omega
    have hd : 2 ^ 20 ∣ 1000000 * 2 ^ 53 - 2 ^ 20 := ⟨1000000 * 2 ^ 33 - 1, by omega⟩
    have hR := (roundDouble_grid (100000 * 2 ^ 53 + P) _ hS hd).1 (by omega)
    generalize roundDouble (100000 * 2 ^ 53 + P) = R at hR ⊢
    omega

theorem otpNumber_surjective (n : Nat) (h1 : 100000 ≤ n) (h2 : n ≤ 999999) :
    ∃ k, k < 2 ^ 53 ∧ otpNumber k = n := by
  refine ⟨((n - 100000) * 2 ^ 53 + 899999) / 900000, by omega, ?_⟩
  unfold otpNumber
  generalize hkdef : ((n - 100000) * 2 ^ 53 + 899999) / 900000 = k
  have hk1 : (n - 100000) * 2 ^ 53 ≤ k * 900000 := by omega
  have hk2 : k * 900000 ≤ (n - 100000) * 2 ^ 53 + 2 ^ 20 := by omega
  have hp : k * 900000 < 2 ^ 73 := by omega
  have hd2 : 2 ^ 20 ∣ (n - 100000) * 2 ^ 53 + 2 ^ 20 :=
    ⟨(n - 100000) * 2 ^ 33 + 1, by omega⟩
  have hP1 := (roundDouble_grid (k * 900000) _ hp (dvd_mul_pow53 _)).2 hk1
  have hP2 := (roundDouble_grid (k * 900000) _ hp hd2).1 hk2
  generalize roundDouble (k * 900000) = P at hP1 hP2 ⊢
  have hS : 100000 * 2 ^ 53 + P < 2 ^ 73 := by omega
  have hd3 : 2 ^ 20 ∣ n * 2 ^ 53 + 2 ^ 20 := ⟨n * 2 ^ 33 + 1, by omega⟩
  have hS1 := (roundDouble_grid (100000 * 2 ^ 53 + P) _ hS (dvd_mul_pow53 n)).2 (by omega)
  have hS2 := (roundDouble_grid (100000 * 2 ^ 53 + P) _ hS hd3).1 (by omega)
  generalize roundDouble (100000 * 2 ^ 53 + P) = R at hS1 hS2 ⊢
  omega

theorem toDigits_six (n : Nat) (h1 : 100000 ≤ n) (h2 : n ≤ 999999) :
    Nat.toDigits 10 n =
      [Nat.digitChar (n / 100000), Nat.digitChar (n / 10000 % 10),
       Nat.digitChar (n / 1000 % 10), Nat.digitChar (n / 100 % 10),
       Nat.digitChar (n / 10 % 10), Nat.digitChar (n % 10)] := by
  unfold Nat.toDigits
  obtain ⟨f, hf⟩ : ∃ f, n + 1 = f + 6 := ⟨n - 5, by omega⟩
  rw [hf]
  have e1 : n / 10 ≠ 0 := by omega
  have e2 : n / 10 / 10 ≠ 0 := by omega
  have e3 : n / 10 / 10 / 10 ≠ 0 := by omega
  have e4 : n / 10 / 10 / 10 / 10 ≠ 0 := by omega
  have e5 : n / 10 / 10 / 10 / 10 / 10 ≠ 0 := by omega
  have e6 : n / 10 / 10 / 10 / 10 / 10 / 10 = 0 := by omega
  have d1 : n / 10 / 10 % 10 = n / 100 % 10 := by omega
  have d2 : n / 10 / 10 / 10 % 10 = n / 1000 % 10 := by omega
  have d3 : n / 10 / 10 / 10 / 10 % 10 = n / 10000 % 10 := by omega
  have d4 : n / 10 / 10 / 10 / 10 / 10 % 10 = n / 100000 := by omega
  simp only [Nat.toDigitsCore, e1, e2, e3, e4, e5, e6, if_false, if_true, d1, d2, d3, d4]

theorem digitChar_isDigit : ∀ d : Nat, d < 10 → (Nat.digitChar d).isDigit = true := by
  decide

theorem digitChar_ne_zero : ∀ d : Nat, d < 10 → d ≠ 0 → Nat.digitChar d ≠ '0' := by
  decide

theorem repr_six_digits (n : Nat) (h1 : 100000 ≤ n) (h2 : n ≤ 999999) :
    (toString n).length = 6 ∧ (∀ c ∈ (toString n).data, c.isDigit = true) ∧
    (toString n).data.head? ≠ some '0' := by
  have hs : toString n = String.mk (Nat.toDigits 10 n) := rfl
  rw [hs, toDigits_six n h1 h2]
  refine ⟨rfl, ?_, ?_⟩
  · intro c hc
    simp only [List.mem_cons, List.mem_singleton, List.not_mem_nil, or_false] at hc
    rcases hc with rfl | rfl | rfl | rfl | rfl | rfl <;>
      exact digitChar_isDigit _ (by omega)
  · simp only [List.head?_cons]
    intro h
    exact digitChar_ne_zero (n / 100000) (by omega) (by omega) (Option.some.inj h)

theorem otpNumber_eq_of (k P R n : Nat) (hP : roundDouble (k * 900000) = P)
    (hS : roundDouble (100000 * 2 ^ 53 + P) = R) (hn : R / 2 ^ 53 = n) : otpNumber k = n := by
  unfold otpNumber
  rw [hP, hS, hn]

theorem generateOTP_eq_of (k n : Nat) (h : otpNumber k = n) : generateOTP k = toString n := by
  unfold generateOTP
  rw [h]

theorem roundDouble_sample_product :
    roundDouble (246366915615510 * 900000) = 24617 * 2 ^ 53 := by
  have hlog : Nat.log2 (246366915615510 * 900000) = 67 :=
    log2_eq_of_bounds (by norm_num) (by norm_num)
  unfold roundDouble
  rw [hlog]
  norm_num

theorem roundDouble_sample_sum :
    roundDouble (100000 * 2 ^ 53 + 24617 * 2 ^ 53) = 124617 * 2 ^ 53 := by
  have hlog : Nat.log2 (100000 * 2 ^ 53 + 24617 * 2 ^ 53) = 69 :=
    log2_eq_of_bounds (by norm_num) (by norm_num)
  unfold roundDouble
  rw [hlog]
  norm_num

theorem otpNumber_at_sample_draw : otpNumber 246366915615510 = 124617 :=
  otpNumber_eq_of 246366915615510 (24617 * 2 ^ 53) (124617 * 2 ^ 53) 124617
    roundDouble_sample_product roundDouble_sample_sum (by norm_num)

/-! ## C1: signup, then verifyOTP -/

/-- C1: on a store without an account for `email`, with non-empty name, email
and password and a delivered mail, `signup` dispatches exactly one verification
mail carrying the generated code, and `verifyOTP` with that code, at a clock
not past the stored expiration, answers 200 with a token and leaves the account
verified with no pending OTP. -/
theorem signup_then_verifyOTP_succeeds (D : Deps) (env1 env2 : Env) (s : Store)
    (name email password : String)
    (hn : name ≠ "") (he : email ≠ "") (hp : password ≠ "")
    (hnew : findOne email s = none) (hmail : env1.mailOk = true)
    (hclock : (getOTPExpiration env1.now env1.otpExpireMinutes none).before env2.now = false) :
    (signup D env1 s (signupBody name email password)).mails
        = [sendOTPEmail email (generateOTP env1.random) name] ∧
    (∃ u, findOne email (signup D env1 s (signupBody name email password)).store = some u ∧
        u.isVerified = false ∧ u.otp = some (generateOTP env1.random) ∧
        u.otpExpire = some (getOTPExpiration env1.now env1.otpExpireMinutes none)) ∧
    (verifyOTP D env2 (signup D env1 s (signupBody name email password)).store
        (verifyBody email (generateOTP env1.random))).res.status = 200 ∧
    (verifyOTP D env2 (signup D env1 s (signupBody name email password)).store
        (verifyBody email (generateOTP env1.random))).res.success = true ∧
    (verifyOTP D env2 (signup D env1 s (signupBody name email password)).store
        (verifyBody email (generateOTP env1.random))).res.token.isSome = true ∧
    (∃ u, findOne email (verifyOTP D env2 (signup D env1 s (signupBody name email password)).store
        (verifyBody email (generateOTP env1.random))).store = some u ∧
        u.isVerified = true ∧ u.otp = none ∧ u.otpExpire = none) := by
  rw [signup_fresh_eq D env1 s name email password hn he hp hnew]
  rw [if_pos hmail]
  have hfind := findOne_append_of_none
    ({ _id := freshId s, name := name, email := email, password := D.hash password,
       otp := some (generateOTP env1.random),
       otpExpire := some (getOTPExpiration env1.now env1.otpExpireMinutes none),
       isVerified := false } : User) hnew rfl
  have hlive : otpExpired
      ({ _id := freshId s, name := name, email := email, password := D.hash password,
         otp := some (generateOTP env1.random),
         otpExpire := some (getOTPExpiration env1.now env1.otpExpireMinutes none),
         isVerified := false } : User) env2.now = false := hclock
  refine ⟨rfl, ⟨_, hfind, rfl, rfl, rfl⟩, ?_⟩
  rw [verifyOTP_eq D env2 _ email _ _ he (generateOTP_ne_empty _) hfind,
    if_neg (not_not.mpr rfl), hlive]
  refine ⟨rfl, rfl, rfl, ?_⟩
  dsimp only
  rw [save_fresh s _ _ rfl]
  exact ⟨_, findOne_append_of_none _ hnew rfl, rfl, rfl, rfl⟩

/-- Witness: a first signup of Alice followed by `verifyOTP` with the
dispatched code. -/
theorem signup_then_verifyOTP_succeeds_witness :
    findOne "alice@x.com" [] = none ∧
    (verifyOTP demoDeps demoEnv
      (signup demoDeps demoEnv [] (signupBody "Alice" "alice@x.com" "pw123")).store
      (verifyBody "alice@x.com" (generateOTP demoEnv.random))).res.status = 200 :=
  ⟨rfl, (signup_then_verifyOTP_succeeds demoDeps demoEnv demoEnv [] "Alice" "alice@x.com" "pw123"
    (by decide) (by decide) (by decide) rfl rfl (by decide)).2.2.1⟩

/-! ## C2: signup with a known email -/

/-- C2: on a store that holds an account for `email` (an account's email is
never empty), `signup` with any non-empty name and password answers 400 `User
already exists with this email`, leaves the store as it was and hands no mail
to the mailer. -/
theorem signup_existing_email_conflict (D : Deps) (env : Env) (s : Store)
    (name email password : String) (u : User)
    (hn : name ≠ "") (he : email ≠ "") (hp : password ≠ "")
    (hex : findOne email s = some u) :
    (signup D env s (signupBody name email password)).res
        = fail 400 "User already exists with this email" ∧
    (signup D env s (signupBody name email password)).store = s ∧
    (signup D env s (signupBody name email password)).mails = [] ∧
    findOne email (signup D env s (signupBody name email password)).store = some u := by
  rw [signup_existing_eq D env s name email password u hn he hp hex]
  exact ⟨rfl, rfl, rfl, hex⟩

/-- Witness: a second signup with Alice's email. -/
theorem signup_existing_email_conflict_witness :
    findOne "alice@x.com" [aliceVerified] = some aliceVerified ∧
    (signup demoDeps demoEnv [aliceVerified] (signupBody "Eve" "alice@x.com" "other")).store
      = [aliceVerified] :=
  ⟨by decide, (signup_existing_email_conflict demoDeps demoEnv [aliceVerified] "Eve" "alice@x.com"
    "other" aliceVerified (by decide) (by decide) (by decide) (by decide)).2.1⟩

/-! ## C3: signup with a failing mailer -/

/-- C3: when a signup request with non-empty name, email and password reaches
the mailer and the mailer fails, `signup` answers 500 `Error sending
verification email. Please try again.`, the store afterwards equals the store
before the call, and it holds no account for `email`. -/
theorem signup_mail_failure_rolls_back (D : Deps) (env : Env) (s : Store)
    (name email password : String)
    (hn : name ≠ "") (he : email ≠ "") (hp : password ≠ "")
    (hdispatch : (signup D env s (signupBody name email password)).mails ≠ [])
    (hmail : env.mailOk = false) :
    (signup D env s (signupBody name email password)).res
        = fail 500 "Error sending verification email. Please try again." ∧
    (signup D env s (signupBody name email password)).mails
        = [sendOTPEmail email (generateOTP env.random) name] ∧
    (signup D env s (signupBody name email password)).store = s ∧
    findOne email (signup D env s (signupBody name email password)).store = none := by
  cases hex : findOne email s with
  | some u =>
    rw [signup_existing_eq D env s name email password u hn he hp hex] at hdispatch
    exact absurd rfl hdispatch
  | none =>
    rw [signup_fresh_eq D env s name email password hn he hp hex]
    simp only [hmail, Bool.false_eq_true, if_false]
    exact ⟨trivial, trivial, trivial, hex⟩

/-- Witness: a signup of Bob while the mailer is down. -/
theorem signup_mail_failure_rolls_back_witness :
    demoEnvMailDown.mailOk = false ∧
    (signup demoDeps demoEnvMailDown [aliceVerified]
      (signupBody "Bob" "bob@x.com" "pw")).store = [aliceVerified] ∧
    findOne "bob@x.com" (signup demoDeps demoEnvMailDown [aliceVerified]
      (signupBody "Bob" "bob@x.com" "pw")).store = none :=
  ⟨rfl, (signup_mail_failure_rolls_back demoDeps demoEnvMailDown [aliceVerified] "Bob" "bob@x.com"
    "pw" (by decide) (by decide) (by decide) (by decide) rfl).2.2⟩

/-! ## C4: verifyOTP with a wrong code -/

/-- C4: for an existing account and a non-empty submitted code that differs
from the stored pending code, `verifyOTP` answers 400 `Invalid OTP` without a
token and leaves the store, hence the account's `isVerified`, code and
expiration, as it was; a later `verifyOTP` with the stored code, not yet
expired, still answers 200. -/
theorem verifyOTP_wrong_code_keeps_state (D : Deps) (env : Env) (s : Store)
    (email code : String) (u : User)
    (he : email ≠ "") (hc : code ≠ "") (hex : findOne email s = some u)
    (hne : u.otp ≠ some code) :
    (verifyOTP D env s (verifyBody email code)).res = fail 400 "Invalid OTP" ∧
    (verifyOTP D env s (verifyBody email code)).res.token = none ∧
    (verifyOTP D env s (verifyBody email code)).store = s ∧
    (verifyOTP D env s (verifyBody email code)).mails = [] ∧
    findOne email (verifyOTP D env s (verifyBody email code)).store = some u ∧
    (∀ (env2 : Env) (stored : String), u.otp = some stored → stored ≠ "" →
      otpExpired u env2.now = false →
      (verifyOTP D env2 (verifyOTP D env s (verifyBody email code)).store
        (verifyBody email stored)).res.status = 200 ∧
      (verifyOTP D env2 (verifyOTP D env s (verifyBody email code)).store
        (verifyBody email stored)).res.token = some (D.generateToken u._id)) := by
  rw [verifyOTP_eq D env s email code u he hc hex, if_pos hne]
  refine ⟨rfl, rfl, rfl, rfl, hex, ?_⟩
  intro env2 stored hst hsne hexp
  rw [verifyOTP_eq D env2 s email stored u he hsne hex]
  simp [hst, hexp, Response.token]

/-- Witness: a wrong code for Alice's pending OTP. -/
theorem verifyOTP_wrong_code_keeps_state_witness :
    aliceUnverified.otp ≠ some "000000" ∧
    (verifyOTP demoDeps demoEnv [aliceUnverified] (verifyBody "alice@x.com" "000000")).res
      = fail 400 "Invalid OTP" :=
  ⟨by decide, (verifyOTP_wrong_code_keeps_state demoDeps demoEnv [aliceUnverified] "alice@x.com"
    "000000" aliceUnverified (by decide) (by decide) (by decide) (by decide)).1⟩

/-! ## C5: verifyOTP after the expiration -/

/-- C5: for an existing account whose stored expiration is earlier than the
clock, `verifyOTP` with the exactly matching code answers 400 `OTP has expired.
Please request a new one.` without a token and leaves the store as it was. -/
theorem verifyOTP_expired_fails (D : Deps) (env : Env) (s : Store)
    (email code : String) (u : User) (e : Nat)
    (he : email ≠ "") (hc : code ≠ "") (hex : findOne email s = some u)
    (hcode : u.otp = some code) (hexp : u.otpExpire = some (JsDate.valid e))
    (hpast : e < env.now) :
    (verifyOTP D env s (verifyBody email code)).res
        = fail 400 "OTP has expired. Please request a new one." ∧
    (verifyOTP D env s (verifyBody email code)).res.token = none ∧
    (verifyOTP D env s (verifyBody email code)).store = s ∧
    (verifyOTP D env s (verifyBody email code)).mails = [] ∧
    findOne email (verifyOTP D env s (verifyBody email code)).store = some u := by
  have hx : otpExpired u env.now = true := by simp [otpExpired, JsDate.before, hexp, hpast]
  rw [verifyOTP_eq D env s email code u he hc hex]
  rw [if_neg (not_not.mpr hcode), if_pos hx]
  exact ⟨rfl, rfl, rfl, rfl, hex⟩

/-- Witness: Alice's code submitted after its expiration. -/
theorem verifyOTP_expired_fails_witness :
    (601000 : Nat) < 700000 ∧
    (verifyOTP demoDeps { demoEnv with now := 700000 } [aliceUnverified]
      (verifyBody "alice@x.com" "123456")).res
      = fail 400 "OTP has expired. Please request a new one." :=
  ⟨by decide, (verifyOTP_expired_fails demoDeps { demoEnv with now := 700000 } [aliceUnverified]
    "alice@x.com" "123456" aliceUnverified 601000 (by decide) (by decide) (by decide) rfl rfl
    (by decide)).1⟩

/-! ## C6: login before verification -/

/-- C6 fails for an empty password: the account is unverified, yet `login`
answers 400 `Please provide email and password`. -/
theorem login_unverified_empty_password_is_400 :
    findOne "alice@x.com" [aliceUnverified] = some aliceUnverified ∧
    aliceUnverified.isVerified = false ∧
    (login demoDeps demoEnv [aliceUnverified] (loginBody "alice@x.com" "")).res
      = fail 400 "Please provide email and password" ∧
    (login demoDeps demoEnv [aliceUnverified] (loginBody "alice@x.com" "")).res.status ≠ 401 := by
  decide

/-- C6, amended: when the account for `email` is unverified, `login` never
issues a token and leaves the store as it was; with a non-empty password,
matching the stored hash or not, it answers 401 `Please verify your email
first`, and with an empty password 400 `Please provide email and password`. -/
theorem login_unverified_rejected (D : Deps) (env : Env) (s : Store)
    (email password : String) (u : User)
    (he : email ≠ "") (hex : findOne email s = some u) (hunv : u.isVerified = false) :
    (login D env s (loginBody email password)).res.token = none ∧
    (login D env s (loginBody email password)).store = s ∧
    (password ≠ "" → (login D env s (loginBody email password)).res
        = fail 401 "Please verify your email first") ∧
    (password = "" → (login D env s (loginBody email password)).res
        = fail 400 "Please provide email and password") := by
  by_cases hp : password = ""
  · subst hp
    have h : login D env s (loginBody email "")
        = ⟨fail 400 "Please provide email and password", s, []⟩ := by
      simp only [login, loginBody, present_some he, present_empty]
    rw [h]
    exact ⟨rfl, rfl, fun h => absurd rfl h, fun _ => rfl⟩
  · rw [login_eq D env s email password u he hp hex]
    rw [if_pos (by simp [hunv])]
    exact ⟨rfl, rfl, fun _ => rfl, fun h => absurd h hp⟩

/-- Witness: a login of unverified Alice with her password. -/
theorem login_unverified_rejected_witness :
    aliceUnverified.isVerified = false ∧
    (login demoDeps demoEnv [aliceUnverified] (loginBody "alice@x.com" "pw123")).res
      = fail 401 "Please verify your email first" :=
  ⟨rfl, (login_unverified_rejected demoDeps demoEnv [aliceUnverified] "alice@x.com" "pw123"
    aliceUnverified (by decide) (by decide) rfl).2.2.1 (by decide)⟩

/-! ## C7: login failures compared -/

/-- C7 fails for an unverified account: an unknown email gets 401 `Invalid
credentials`, a known email with a wrong password gets 401 `Please verify your
email first`. -/
theorem login_unknown_vs_unverified_differ :
    findOne "bob@x.com" [aliceUnverified] = none ∧
    findOne "alice@x.com" [aliceUnverified] = some aliceUnverified ∧
    demoDeps.matchPassword "wrong" aliceUnverified.password = false ∧
    (login demoDeps demoEnv [aliceUnverified] (loginBody "bob@x.com" "wrong")).res
      = fail 401 "Invalid credentials" ∧
    (login demoDeps demoEnv [aliceUnverified] (loginBody "alice@x.com" "wrong")).res
      = fail 401 "Please verify your email first" ∧
    (login demoDeps demoEnv [aliceUnverified] (loginBody "bob@x.com" "wrong")).res
      ≠ (login demoDeps demoEnv [aliceUnverified] (loginBody "alice@x.com" "wrong")).res := by
  decide

/-- C7, amended: for non-empty emails and passwords, `login` with an email
that has no account and `login` with the email of a verified account and a
password that does not match its stored hash give the same response, 401
`Invalid credentials`. -/
theorem login_unknown_vs_wrong_password_same (D : Deps) (env1 env2 : Env) (s : Store)
    (email1 password1 email2 password2 : String) (u : User)
    (he1 : email1 ≠ "") (hp1 : password1 ≠ "") (he2 : email2 ≠ "") (hp2 : password2 ≠ "")
    (hnone : findOne email1 s = none) (hex : findOne email2 s = some u)
    (hver : u.isVerified = true) (hwrong : D.matchPassword password2 u.password = false) :
    (login D env1 s (loginBody email1 password1)).res = fail 401 "Invalid credentials" ∧
    (login D env2 s (loginBody email2 password2)).res = fail 401 "Invalid credentials" ∧
    (login D env1 s (loginBody email1 password1)).res
      = (login D env2 s (loginBody email2 password2)).res := by
  have h1 : login D env1 s (loginBody email1 password1)
      = ⟨fail 401 "Invalid credentials", s, []⟩ := by
    simp only [login, loginBody, present_some he1, present_some hp1, hnone]
  have h2 : login D env2 s (loginBody email2 password2)
      = ⟨fail 401 "Invalid credentials", s, []⟩ := by
    rw [login_eq D env2 s email2 password2 u he2 hp2 hex]
    simp [hver, hwrong]
  rw [h1, h2]
  exact ⟨rfl, rfl, rfl⟩

/-- Witness: an unknown email against verified Alice with a wrong password. -/
theorem login_unknown_vs_wrong_password_same_witness :
    findOne "bob@x.com" [aliceVerified] = none ∧
    (login demoDeps demoEnv [aliceVerified] (loginBody "bob@x.com" "pw123")).res
      = (login demoDeps demoEnv [aliceVerified] (loginBody "alice@x.com" "wrong")).res :=
  ⟨by decide, (login_unknown_vs_wrong_password_same demoDeps demoEnv demoEnv [aliceVerified]
    "bob@x.com" "pw123" "alice@x.com" "wrong" aliceVerified (by decide) (by decide) (by decide)
    (by decide) (by decide) (by decide) rfl (by decide)).2.2⟩

/-! ## C8: resetPassword replaces the credential -/

/-- C8 fails for an unverified account: the reset with the matching unexpired
code answers 200, yet the following `login` with the new password answers 401
`Please verify your email first`. -/
theorem reset_then_login_unverified_rejected :
    findOne "alice@x.com" [aliceUnverified] = some aliceUnverified ∧
    aliceUnverified.otp = some "123456" ∧
    otpExpired aliceUnverified demoEnv.now = false ∧
    (resetPassword demoDeps demoEnv [aliceUnverified]
      (resetBody "alice@x.com" "123456" "newpw")).res.status = 200 ∧
    (login demoDeps demoEnv
      (resetPassword demoDeps demoEnv [aliceUnverified]
        (resetBody "alice@x.com" "123456" "newpw")).store
      (loginBody "alice@x.com" "newpw")).res = fail 401 "Please verify your email first" := by
  decide

/-- C8, amended: for an existing account with a pending code and a non-empty
new password, `resetPassword` with the matching unexpired code answers 200
without a token and stores `hash newPassword` as the credential, clearing the
pending OTP and keeping `isVerified`. When `matchPassword p (hash q)` holds
exactly for `p = q`: a later `login` with any other password (the old one
included) does not succeed; a later `login` with the new password succeeds with
a token when the account is verified, and answers 401 `Please verify your email
first` when it is not. -/
theorem resetPassword_replaces_credential (D : Deps) (env : Env) (s : Store)
    (email code newPassword : String) (u : User)
    (hmatch : ∀ p q, D.matchPassword p (D.hash q) = true ↔ p = q)
    (he : email ≠ "") (hc : code ≠ "") (hp : newPassword ≠ "")
    (hex : findOne email s = some u) (hcode : u.otp = some code)
    (hlive : otpExpired u env.now = false) :
    let out := resetPassword D env s (resetBody email code newPassword)
    out.res = ack 200 "Password reset successful. You can now login with your new password." ∧
    out.res.token = none ∧
    (∃ u2, findOne email out.store = some u2 ∧ u2.password = D.hash newPassword ∧
      u2.otp = none ∧ u2.otpExpire = none ∧ u2.isVerified = u.isVerified) ∧
    (∀ (env2 : Env) (p : String), p ≠ newPassword →
      (login D env2 out.store (loginBody email p)).res.status ≠ 200 ∧
      (login D env2 out.store (loginBody email p)).res.token = none) ∧
    (u.isVerified = true → ∀ env2 : Env,
      (login D env2 out.store (loginBody email newPassword)).res.status = 200 ∧
      (login D env2 out.store (loginBody email newPassword)).res.token
        = some (D.generateToken u._id)) ∧
    (u.isVerified = false → ∀ env2 : Env,
      (login D env2 out.store (loginBody email newPassword)).res
        = fail 401 "Please verify your email first") := by
  intro out
  have hout : out = ⟨ack 200
      "Password reset successful. You can now login with your new password.",
      save u._id
        (fun r => { r with password := D.hash newPassword, otp := none, otpExpire := none }) s,
      []⟩ := by
    show resetPassword D env s (resetBody email code newPassword) = _
    rw [resetPassword_eq D env s email code newPassword u he hc hp hex,
      if_neg (not_not.mpr hcode), hlive]
    rfl
  have hfind := findOne_save
    (fun r : User => { r with password := D.hash newPassword, otp := none, otpExpire := none })
    (fun _ => rfl) hex
  rw [hout]
  refine ⟨rfl, rfl, ⟨_, hfind, rfl, rfl, rfl, rfl⟩, ?_, ?_, ?_⟩
  · intro env2 p hpne
    by_cases hpe : p = ""
    · subst hpe
      rw [login_empty_password]
      exact ⟨by simp [fail], rfl⟩
    · rw [login_eq D env2 _ email p _ he hpe hfind]
      have hm : D.matchPassword p (D.hash newPassword) = false := by
        cases h : D.matchPassword p (D.hash newPassword) with
        | false => rfl
        | true => exact absurd ((hmatch p newPassword).mp h) hpne
      cases hv : u.isVerified <;> simp [hv, hm, fail, Response.token]
  · intro hv env2
    rw [login_eq D env2 _ email newPassword _ he hp hfind]
    have hm : D.matchPassword newPassword (D.hash newPassword) = true :=
      (hmatch newPassword newPassword).mpr rfl
    simp [hv, hm, Response.token]
  · intro hv env2
    rw [login_eq D env2 _ email newPassword _ he hp hfind]
    simp [hv]

/-- Witness: verified Alice resets her password and logs in with it. -/
theorem resetPassword_replaces_credential_witness :
    aliceVerified.otp = some "123456" ∧
    (login demoDeps demoEnv
      (resetPassword demoDeps demoEnv [aliceVerified]
        (resetBody "alice@x.com" "123456" "newpw")).store
      (loginBody "alice@x.com" "newpw")).res.status = 200 :=
  ⟨rfl, ((resetPassword_replaces_credential demoDeps demoEnv [aliceVerified] "alice@x.com"
    "123456" "newpw" aliceVerified demoDeps_matches (by decide) (by decide) (by decide)
    (by decide) rfl (by decide)).2.2.2.2.1 rfl demoEnv).1⟩

/-! ## C9: a pending OTP is single-use -/

/-- C9: a pending OTP is single-use. When `s2` is the store after a
`verifyOTP` or a `resetPassword` that answered 200 for `email` and `code`, the
account has neither code nor expiration in `s2`, and a further `verifyOTP`, or
`resetPassword` with any non-empty new password, with the same code answers 400
`Invalid OTP`, issues no token, sends nothing and leaves `s2` as it is. -/
theorem pending_otp_single_use (D : Deps) (env env2 : Env) (s s2 : Store)
    (email code newPassword : String)
    (hdone :
      (s2 = (verifyOTP D env s (verifyBody email code)).store ∧
        (verifyOTP D env s (verifyBody email code)).res.status = 200) ∨
      (s2 = (resetPassword D env s (resetBody email code newPassword)).store ∧
        (resetPassword D env s (resetBody email code newPassword)).res.status = 200)) :
    (∃ u2, findOne email s2 = some u2 ∧ u2.otp = none ∧ u2.otpExpire = none) ∧
    (verifyOTP D env2 s2 (verifyBody email code)).res = fail 400 "Invalid OTP" ∧
    (verifyOTP D env2 s2 (verifyBody email code)).res.token = none ∧
    (verifyOTP D env2 s2 (verifyBody email code)).store = s2 ∧
    (verifyOTP D env2 s2 (verifyBody email code)).mails = [] ∧
    (∀ np : String, np ≠ "" →
      (resetPassword D env2 s2 (resetBody email code np)).res = fail 400 "Invalid OTP" ∧
      (resetPassword D env2 s2 (resetBody email code np)).res.token = none ∧
      (resetPassword D env2 s2 (resetBody email code np)).store = s2 ∧
      (resetPassword D env2 s2 (resetBody email code np)).mails = []) := by
  have key : ∃ u2, email ≠ "" ∧ code ≠ "" ∧ findOne email s2 = some u2 ∧ u2.otp = none ∧
      u2.otpExpire = none := by
    rcases hdone with ⟨hs, hok⟩ | ⟨hs, hok⟩
    · obtain ⟨he, hc, u, hex, _, _, hst⟩ := verifyOTP_success_inv D env s email code hok
      rw [hst] at hs
      subst hs
      exact ⟨_, he, hc, findOne_save _ (fun _ => rfl) hex, rfl, rfl⟩
    · obtain ⟨he, hc, _, u, hex, _, _, hst⟩ :=
        resetPassword_success_inv D env s email code newPassword hok
      rw [hst] at hs
      subst hs
      exact ⟨_, he, hc, findOne_save _ (fun _ => rfl) hex, rfl, rfl⟩
  obtain ⟨u2, he, hc, hex2, ho, hx⟩ := key
  obtain ⟨hv, hr⟩ := no_pending_otp_rejected D env2 s2 email code u2 he hc hex2 ho
  refine ⟨⟨u2, hex2, ho, hx⟩, ?_⟩
  rw [hv]
  refine ⟨rfl, rfl, rfl, rfl, fun np hnp => ?_⟩
  rw [hr np hnp]
  exact ⟨rfl, rfl, rfl, rfl⟩

/-- Witness: Alice's code used twice, after a verification and after a
reset. -/
theorem pending_otp_single_use_witness :
    (verifyOTP demoDeps demoEnv [aliceUnverified]
      (verifyBody "alice@x.com" "123456")).res.status = 200 ∧
    (verifyOTP demoDeps demoEnv
      (verifyOTP demoDeps demoEnv [aliceUnverified] (verifyBody "alice@x.com" "123456")).store
      (verifyBody "alice@x.com" "123456")).res = fail 400 "Invalid OTP" ∧
    (resetPassword demoDeps demoEnv [aliceVerified]
      (resetBody "alice@x.com" "123456" "newpw")).res.status = 200 ∧
    (verifyOTP demoDeps demoEnv
      (resetPassword demoDeps demoEnv [aliceVerified]
        (resetBody "alice@x.com" "123456" "newpw")).store
      (verifyBody "alice@x.com" "123456")).res = fail 400 "Invalid OTP" :=
  ⟨by decide,
   (pending_otp_single_use demoDeps demoEnv demoEnv [aliceUnverified] _ "alice@x.com" "123456"
     "newpw" (Or.inl ⟨rfl, by decide⟩)).2.1,
   by decide,
   (pending_otp_single_use demoDeps demoEnv demoEnv [aliceVerified] _ "alice@x.com" "123456"
     "newpw" (Or.inr ⟨rfl, by decide⟩)).2.1⟩

/-! ## C10: resendOTP for a verified account -/

/-- C10: for a store in which the account for `email` is verified, `resendOTP`
answers 400 `User is already verified`, hands no mail to the mailer and leaves
the store, hence the stored code and expiration, as it was. -/
theorem resendOTP_verified_conflict (D : Deps) (env : Env) (s : Store)
    (email : String) (u : User)
    (he : email ≠ "") (hex : findOne email s = some u) (hver : u.isVerified = true) :
    (resendOTP D env s (emailBody email)).res = fail 400 "User is already verified" ∧
    (resendOTP D env s (emailBody email)).mails = [] ∧
    (resendOTP D env s (emailBody email)).store = s ∧
    findOne email (resendOTP D env s (emailBody email)).store = some u := by
  have h : resendOTP D env s (emailBody email)
      = ⟨fail 400 "User is already verified", s, []⟩ := by
    simp only [resendOTP, emailBody, present_some he, hex, hver, if_true]
  rw [h]
  exact ⟨rfl, rfl, rfl, hex⟩

/-- Witness: a resend for verified Alice. -/
theorem resendOTP_verified_conflict_witness :
    aliceVerified.isVerified = true ∧
    (resendOTP demoDeps demoEnv [aliceVerified] (emailBody "alice@x.com")).store
      = [aliceVerified] :=
  ⟨rfl, (resendOTP_verified_conflict demoDeps demoEnv [aliceVerified] "alice@x.com" aliceVerified
    (by decide) (by decide) rfl).2.2.1⟩

/-! ## C11: forgotPassword with a failing mailer -/

/-- C11: for an existing account, when the password-reset mail cannot be
delivered, `forgotPassword` answers 500 `Error sending reset email. Please try
again.` and the stored account afterwards has neither code nor expiration: the
code generated in this call is not left stored. -/
theorem forgotPassword_mail_failure_clears_otp (D : Deps) (env : Env) (s : Store)
    (email : String) (u : User)
    (he : email ≠ "") (hex : findOne email s = some u) (hmail : env.mailOk = false) :
    (forgotPassword D env s (emailBody email)).res
      = fail 500 "Error sending reset email. Please try again." ∧
    (forgotPassword D env s (emailBody email)).mails
      = [sendPasswordResetEmail email (generateOTP env.random) u.name] ∧
    (∃ u2, findOne email (forgotPassword D env s (emailBody email)).store = some u2 ∧
      u2.otp = none ∧ u2.otpExpire = none) := by
  obtain ⟨h1, h2, h3⟩ := forgotPassword_mail_failure_find D env s email u he hex hmail
  exact ⟨h1, h2, _, h3, rfl, rfl⟩

/-- Witness: a forgot-password request for Alice while the mailer is down. -/
theorem forgotPassword_mail_failure_clears_otp_witness :
    demoEnvMailDown.mailOk = false ∧
    (forgotPassword demoDeps demoEnvMailDown [aliceVerified] (emailBody "alice@x.com")).res
      = fail 500 "Error sending reset email. Please try again." :=
  ⟨rfl, (forgotPassword_mail_failure_clears_otp demoDeps demoEnvMailDown [aliceVerified]
    "alice@x.com" aliceVerified (by decide) (by decide) rfl).1⟩

/-! ## C12: forgotPassword is not a full rollback -/

/-- C12 fails for an account that holds a pending code: after the failed
dispatch the stored record has lost its code and expiration, so it differs from
the record before the call. -/
theorem forgotPassword_mail_failure_drops_pending_code :
    findOne "alice@x.com" [aliceVerified] = some aliceVerified ∧
    demoEnvMailDown.mailOk = false ∧
    (forgotPassword demoDeps demoEnvMailDown [aliceVerified] (emailBody "alice@x.com")).res.status
      = 500 ∧
    findOne "alice@x.com"
      (forgotPassword demoDeps demoEnvMailDown [aliceVerified] (emailBody "alice@x.com")).store
      = some { aliceVerified with otp := none, otpExpire := none } ∧
    findOne "alice@x.com"
      (forgotPassword demoDeps demoEnvMailDown [aliceVerified] (emailBody "alice@x.com")).store
      ≠ some aliceVerified := by
  decide

/-- C12, amended: for an existing account, when the dispatch fails during
`forgotPassword` the stored record afterwards is the record before the call
with code and expiration absent; it equals the record before the call when the
account held no code and no expiration. -/
theorem forgotPassword_mail_failure_record (D : Deps) (env : Env) (s : Store)
    (email : String) (u : User)
    (he : email ≠ "") (hex : findOne email s = some u) (hmail : env.mailOk = false) :
    findOne email (forgotPassword D env s (emailBody email)).store
      = some { u with otp := none, otpExpire := none } ∧
    (u.otp = none → u.otpExpire = none →
      findOne email (forgotPassword D env s (emailBody email)).store = some u) := by
  obtain ⟨_, _, h3⟩ := forgotPassword_mail_failure_find D env s email u he hex hmail
  refine ⟨h3, fun ho hx => ?_⟩
  rw [h3]
  cases u
  simp only at ho hx
  subst ho hx
  rfl

/-- Witness: a forgot-password request, with the mailer down, for an account
without a pending code. -/
theorem forgotPassword_mail_failure_record_witness :
    findOne "alice@x.com" [{ aliceVerified with otp := none, otpExpire := none }]
      = some { aliceVerified with otp := none, otpExpire := none } ∧
    findOne "alice@x.com" (forgotPassword demoDeps demoEnvMailDown
      [{ aliceVerified with otp := none, otpExpire := none }] (emailBody "alice@x.com")).store
      = some { aliceVerified with otp := none, otpExpire := none } :=
  ⟨by decide, (forgotPassword_mail_failure_record demoDeps demoEnvMailDown
    [{ aliceVerified with otp := none, otpExpire := none }] "alice@x.com"
    { aliceVerified with otp := none, otpExpire := none } (by decide) (by decide) rfl).2 rfl rfl⟩

/-! ## C13: missing fields -/

/-- C13 fails for a request without a parsed body, in which every input is
missing: the destructuring of `req.body` throws and the outer `catch` of
`signup` answers 500 `Server error during signup`, not the 400 of the guard. -/
theorem bodyless_signup_answers_500 :
    (handle demoDeps Op.signup demoEnv [aliceVerified] none).res
      = serverError "Server error during signup" (demoDeps.destructureError "name") ∧
    (handle demoDeps Op.signup demoEnv [aliceVerified] none).res.status = 500 ∧
    (handle demoDeps Op.signup demoEnv [aliceVerified] none).res
      ≠ fail 400 (validationMessage Op.signup) := by
  decide

/-- C13, amended: for each of the six operations, when a required field is
missing or empty in the parsed body, or the request has no parsed body at all,
the handler issues no token, leaves the store as it was and hands no mail to
the mailer; with a parsed body it answers 400 with the message of its guard,
and without one the outer `catch` answers 500 with its `Server error` message
and the text of the exception. -/
theorem missing_field_fails_fast (D : Deps) (op : Op) (env : Env) (s : Store)
    (req : Option Body)
    (hmiss : ∀ body, req = some body →
      ∃ f ∈ requiredFields op body, f = none ∨ f = some "") :
    (∀ body, req = some body →
      (handle D op env s req).res = fail 400 (validationMessage op) ∧
      (handle D op env s req).res.status = 400) ∧
    (req = none →
      (handle D op env s req).res
        = serverError (serverErrorMessage op) (D.destructureError (firstProperty op)) ∧
      (handle D op env s req).res.status = 500) ∧
    (handle D op env s req).res.token = none ∧
    (handle D op env s req).store = s ∧
    (handle D op env s req).mails = [] := by
  cases req with
  | none =>
    rw [bodyless_eq]
    exact ⟨fun _ h => Option.noConfusion h, fun _ => ⟨rfl, rfl⟩, rfl, rfl, rfl⟩
  | some body =>
    rw [missing_field_eq D op env s body (hmiss body rfl)]
    exact ⟨fun _ _ => ⟨rfl, rfl⟩, fun h => Option.noConfusion h, rfl, rfl, rfl⟩

/-- Witness: a reset-password request with an empty new password, and a
forgot-password request without a body. -/
theorem missing_field_fails_fast_witness :
    (handle demoDeps Op.resetPassword demoEnv [aliceVerified]
      (resetBody "alice@x.com" "123456" "")).res
      = fail 400 "Please provide email, OTP, and new password" ∧
    (handle demoDeps Op.resetPassword demoEnv [aliceVerified]
      (resetBody "alice@x.com" "123456" "")).store = [aliceVerified] ∧
    (handle demoDeps Op.forgotPassword demoEnv [aliceVerified] none).res.status = 500 ∧
    (handle demoDeps Op.forgotPassword demoEnv [aliceVerified] none).store = [aliceVerified] :=
  ⟨((missing_field_fails_fast demoDeps Op.resetPassword demoEnv [aliceVerified]
      (resetBody "alice@x.com" "123456" "")
      (fun body h => ⟨some "", by cases h; decide, Or.inr rfl⟩)).1 _ rfl).1,
   (missing_field_fails_fast demoDeps Op.resetPassword demoEnv [aliceVerified]
      (resetBody "alice@x.com" "123456" "")
      (fun body h => ⟨some "", by cases h; decide, Or.inr rfl⟩)).2.2.2.1,
   ((missing_field_fails_fast demoDeps Op.forgotPassword demoEnv [aliceVerified] none
      (fun _ h => Option.noConfusion h)).2.1 rfl).2,
   (missing_field_fails_fast demoDeps Op.forgotPassword demoEnv [aliceVerified] none
      (fun _ h => Option.noConfusion h)).2.2.2.1⟩

/-! ## C14: isVerified is monotone -/

/-- C14: `isVerified` is monotone. A record that `signup` adds to the store is
unverified; under every operation, with any request body (or none) and any outcome of the
mailer, an account stored with `isVerified = true` is still stored, under the
same identifier and email, with `isVerified = true`; and an account that is
verified after an operation was verified before it, unless the operation is a
`verifyOTP` that answered 200. -/
theorem isVerified_monotone (D : Deps) (op : Op) (env : Env) (s : Store)
    (req : Option Body) :
    (∀ r ∈ (handle D Op.signup env s req).store, r ∉ s → r.isVerified = false) ∧
    (∀ u ∈ s, u.isVerified = true →
      ∃ u2 ∈ (handle D op env s req).store,
        u2._id = u._id ∧ u2.email = u.email ∧ u2.isVerified = true) ∧
    (∀ u2 ∈ (handle D op env s req).store, u2.isVerified = true →
      (∃ u ∈ s, u._id = u2._id ∧ u.email = u2.email ∧ u.isVerified = true) ∨
      (op = Op.verifyOTP ∧ (handle D op env s req).res.status = 200)) := by
  refine ⟨?_, ?_, ?_⟩
  · intro r hr hnot
    rcases signup_store_shape D env s req with hs | ⟨_, e, r2, _, _, _, _, hunv, _, hs⟩
    · rw [show (handle D Op.signup env s req).store = s from hs] at hr
      exact absurd hr hnot
    · rw [show (handle D Op.signup env s req).store = s ++ [r2] from hs] at hr
      rcases List.mem_append.mp hr with h | h
      · exact absurd h hnot
      · rw [List.mem_singleton.mp h]; exact hunv
  · intro u hu hver
    rcases handle_store_shape D op env s req with hs | ⟨_, e, v, f, _, _, _, hf, hs⟩ |
        ⟨_, e, r, _, _, _, _, _, _, _, hs⟩
    · rw [hs]; exact ⟨u, hu, rfl, rfl, hver⟩
    · rw [hs]
      refine ⟨if u._id = v._id then f u else u, ?_, ?_⟩
      · unfold save
        exact List.mem_map.mpr ⟨u, hu, rfl⟩
      · by_cases hid : u._id = v._id
        · rw [if_pos hid]
          obtain ⟨h1, h2, h3⟩ := hf u
          refine ⟨h1, h2, ?_⟩
          rcases h3 with h3 | ⟨h3, _⟩
          · rw [h3]; exact hver
          · exact h3
        · rw [if_neg hid]
          exact ⟨rfl, rfl, hver⟩
    · rw [hs]
      exact ⟨u, List.mem_append_left _ hu, rfl, rfl, hver⟩
  · intro u2 hu2 hver
    rcases handle_store_shape D op env s req with hs | ⟨_, e, v, f, _, _, _, hf, hs⟩ |
        ⟨_, e, r, _, _, _, _, _, hunv, _, hs⟩
    · rw [hs] at hu2; exact Or.inl ⟨u2, hu2, rfl, rfl, hver⟩
    · rw [hs] at hu2
      unfold save at hu2
      obtain ⟨u, hu, hux⟩ := List.mem_map.mp hu2
      by_cases hid : u._id = v._id
      · simp only [hid, if_true] at hux
        obtain ⟨h1, h2, h3⟩ := hf u
        subst hux
        rcases h3 with h3 | ⟨_, hop, hst⟩
        · exact Or.inl ⟨u, hu, h1.symm, h2.symm, by rw [← h3]; exact hver⟩
        · exact Or.inr ⟨hop, hst⟩
      · simp only [hid, if_false] at hux
        subst hux
        exact Or.inl ⟨u, hu, rfl, rfl, hver⟩
    · rw [hs] at hu2
      rcases List.mem_append.mp hu2 with h | h
      · exact Or.inl ⟨u2, h, rfl, rfl, hver⟩
      · rw [List.mem_singleton.mp h, hunv] at hver
        exact absurd hver (by decide)

/-! ## C15: emails are unique -/

/-- C15: starting from the empty store, after any finite sequence of requests
to the six operations, handled one at a time, the emails of the stored accounts
are pairwise distinct: two stored records with the same email are the same
record. -/
theorem emails_unique_in_reachable_stores (D : Deps) (calls : List Call) :
    ((run D calls []).map (fun u => u.email)).Nodup ∧
    (run D calls []).Nodup ∧
    (∀ u ∈ run D calls [], ∀ v ∈ run D calls [], u.email = v.email → u = v) := by
  have h := run_preserves_unique_emails D calls [] List.nodup_nil
  exact ⟨h, List.Nodup.of_map _ h, List.inj_on_of_nodup_map h⟩

/-! ## C16: the generated code -/

/-- C16 fails at the draw `r = 246366915615510 / 2 ^ 53`: the exact value of
`100000 + r * 900000` lies below 124617, so its floor is 124616, but the
double product rounds up to 24617 and `generateOTP` returns `124617`. -/
theorem generateOTP_above_exact_floor :
    (246366915615510 : Nat) < 2 ^ 53 ∧
    246366915615510 * 900000 < 24617 * 2 ^ 53 ∧
    exactFloorOTP 246366915615510 = 124616 ∧
    otpNumber 246366915615510 = 124617 ∧
    generateOTP 246366915615510 = "124617" ∧
    generateOTP 246366915615510 ≠ toString (exactFloorOTP 246366915615510) := by
  have he : exactFloorOTP 246366915615510 = 124616 := by
    unfold exactFloorOTP
    norm_num
  have hg : generateOTP 246366915615510 = "124617" :=
    (generateOTP_eq_of _ _ otpNumber_at_sample_draw).trans (by decide)
  refine ⟨by norm_num, by norm_num, he, otpNumber_at_sample_draw, hg, ?_⟩
  rw [hg, he]
  decide

/-- C16, amended: for every draw `r = random / 2 ^ 53` with `0 ≤ r < 1`,
`generateOTP` returns the decimal string of the integer
`Math.floor(100000 + r * 900000)` as computed in doubles; this integer lies in
`[100000, 999999]` and is the exact `floor(100000 + r * 900000)` or one more
(when the double product rounds up to an integer); the string has exactly 6
decimal digits and no leading zero; and every integer in `[100000, 999999]` is
produced by some draw. -/
theorem generateOTP_six_digits (random : Nat) (hr : random < 2 ^ 53) :
    generateOTP random = toString (otpNumber random) ∧
    100000 ≤ otpNumber random ∧ otpNumber random ≤ 999999 ∧
    (otpNumber random = exactFloorOTP random ∨ otpNumber random = exactFloorOTP random + 1) ∧
    (generateOTP random).length = 6 ∧
    (∀ c ∈ (generateOTP random).data, c.isDigit = true) ∧
    (generateOTP random).data.head? ≠ some '0' ∧
    (∀ n : Nat, 100000 ≤ n → n ≤ 999999 →
      ∃ draw, draw < 2 ^ 53 ∧ otpNumber draw = n ∧ generateOTP draw = toString n) := by
  have h1 := otpNumber_ge random hr
  have h2 := otpNumber_le random hr
  have h3 := otpNumber_near_exact random hr
  obtain ⟨s1, s2, s3⟩ := repr_six_digits (otpNumber random) h1 h2
  refine ⟨rfl, h1, h2, by omega, s1, s2, s3, ?_⟩
  intro n hn1 hn2
  obtain ⟨k, hk, hkn⟩ := otpNumber_surjective n hn1 hn2
  exact ⟨k, hk, hkn, generateOTP_eq_of k n hkn⟩

/-- Witness: the draw 0 gives the code `100000`. -/
theorem generateOTP_six_digits_witness :
    (0 : Nat) < 2 ^ 53 ∧ 100000 ≤ otpNumber 0 ∧ otpNumber 0 ≤ 999999 ∧
    (generateOTP 0).length = 6 :=
  ⟨by decide, (generateOTP_six_digits 0 (by decide)).2.1,
   (generateOTP_six_digits 0 (by decide)).2.2.1,
   (generateOTP_six_digits 0 (by decide)).2.2.2.2.1⟩

/-! ## C17: the expiration -/

/-- C17: at the clock 1000 with the duration 144000000000 minutes the claimed
timestamp `now + minutes * 60 * 1000` is 8640000000001000, beyond the largest
time value of a `Date`, and `getOTPExpiration` returns an Invalid Date instead
of the date that many minutes ahead. -/
theorem getOTPExpiration_invalid_beyond_date_range :
    1000 + 144000000000 * 60 * 1000 = 8640000000001000 ∧
    maxTimeValue < 8640000000001000 ∧
    getOTPExpiration 1000 none (some 144000000000) = JsDate.invalid ∧
    getOTPExpiration 1000 (some 144000000000) none = JsDate.invalid ∧
    getOTPExpiration 1000 none (some 144000000000)
      ≠ JsDate.valid (1000 + 144000000000 * 60 * 1000) := by
  decide

/-! ## C18: other accounts are untouched -/

/-- C18: every operation touches only the account keyed by the email of its
request. In a store with unique identifiers, for every operation, request body
and outcome of the mailer, the records whose email differs from the request's
email are the same, in the same order, before and after the call; a request
without an email (no parsed body, or a body without the field) changes nothing;
`login` changes nothing; and identifiers stay unique. -/
theorem other_accounts_untouched (D : Deps) (op : Op) (env : Env) (s : Store)
    (req : Option Body) (hids : (s.map (fun u => u._id)).Nodup) :
    (∀ body e, req = some body → body.email = some e →
      (handle D op env s req).store.filter (fun r => r.email != e)
        = s.filter (fun r => r.email != e)) ∧
    ((∀ body, req = some body → body.email = none) → (handle D op env s req).store = s) ∧
    (op = Op.login → (handle D op env s req).store = s) ∧
    ((handle D op env s req).store.map (fun u => u._id)).Nodup := by
  refine ⟨?_, ?_, ?_, handle_preserves_unique_ids D op env s req hids⟩
  · intro body e hreq he
    rcases handle_store_shape D op env s req with hs | ⟨b2, e2, u, f, hb, hp, hex, hf, hs⟩ |
        ⟨b2, e2, r, hb, _, hp, _, hre, _, _, hs⟩
    · rw [hs]
    · rw [hreq] at hb
      cases hb
      rw [he] at hp
      have hee := present_of_some hp
      subst hee
      rw [hs]
      apply filter_save _ _ _ _ _ (fun r => (hf r).2.1)
      intro r hr hid
      have hru : r = u :=
        List.inj_on_of_nodup_map hids hr (mem_of_findOne hex) hid
      rw [hru]
      exact findOne_email hex
    · rw [hreq] at hb
      cases hb
      rw [he] at hp
      have hee := present_of_some hp
      subst hee
      rw [hs, List.filter_append]
      have : [r].filter (fun x => x.email != e2) = [] := by
        rw [List.filter_cons_of_neg (by simp [hre])]
        rfl
      rw [this, List.append_nil]
  · intro hnone
    rcases handle_store_shape D op env s req with hs | ⟨b2, e2, u, f, hb, hp, _⟩ |
        ⟨b2, e2, r, hb, _, hp, _⟩
    · exact hs
    · rw [hnone b2 hb, present_none] at hp; exact Option.noConfusion hp
    · rw [hnone b2 hb, present_none] at hp; exact Option.noConfusion hp
  · intro hop
    subst hop
    simp only [handle]
    unfold login
    split
    · rfl
    · split
      · split
        · rfl
        · split
          · rfl
          · split <;> rfl
      · rfl

/-- Witness: a resend for Bob in a store that also holds Alice. -/
theorem other_accounts_untouched_witness :
    ([aliceVerified, bobUnverified].map (fun u => u._id)).Nodup ∧
    (handle demoDeps Op.resendOTP demoEnv [aliceVerified, bobUnverified]
      (emailBody "bob@x.com")).store.filter (fun r => r.email != "bob@x.com")
      = [aliceVerified] :=
  ⟨by decide,
   ((other_accounts_untouched demoDeps Op.resendOTP demoEnv [aliceVerified, bobUnverified]
     (emailBody "bob@x.com") (by decide)).1 _ "bob@x.com" rfl rfl).trans (by decide)⟩

/-! ## C19: resendOTP with a failing mailer -/

/-- C19: for an existing unverified account, when the mail cannot be delivered
`resendOTP` answers 500 `Error sending OTP email. Please try again.`; the
account is still stored and its OTP fields hold the code and expiration
generated in this call, all its other fields being as before. -/
theorem resendOTP_mail_failure_keeps_new_otp (D : Deps) (env : Env) (s : Store)
    (email : String) (u : User)
    (he : email ≠ "") (hex : findOne email s = some u) (hunv : u.isVerified = false)
    (hmail : env.mailOk = false) :
    (resendOTP D env s (emailBody email)).res
      = fail 500 "Error sending OTP email. Please try again." ∧
    (resendOTP D env s (emailBody email)).mails
      = [sendOTPEmail email (generateOTP env.random) u.name] ∧
    (resendOTP D env s (emailBody email)).store.length = s.length ∧
    findOne email (resendOTP D env s (emailBody email)).store
      = some { u with
          otp := some (generateOTP env.random)
          otpExpire := some (getOTPExpiration env.now env.otpExpireMinutes none) } := by
  rw [resendOTP_eq D env s email u he hex, if_neg (by simp [hunv]), if_neg (by simp [hmail])]
  exact ⟨rfl, rfl, by simp [save], findOne_set_otp env hex⟩

/-- Witness: a resend for unverified Alice while the mailer is down. -/
theorem resendOTP_mail_failure_keeps_new_otp_witness :
    aliceUnverified.isVerified = false ∧ demoEnvMailDown.mailOk = false ∧
    (resendOTP demoDeps demoEnvMailDown [aliceUnverified] (emailBody "alice@x.com")).res
      = fail 500 "Error sending OTP email. Please try again." :=
  ⟨rfl, rfl, (resendOTP_mail_failure_keeps_new_otp demoDeps demoEnvMailDown [aliceUnverified]
    "alice@x.com" aliceUnverified (by decide) (by decide) rfl rfl).1⟩

/-! ## C20: a reset code passes verifyOTP -/

/-- C20: a pending code is not bound to the flow that issued it. For an
existing account, verified or not, after a `forgotPassword` whose mail was
delivered, `verifyOTP` with the dispatched password-reset code, at a clock not
past its expiration, answers 200 with a session token, sets `isVerified`,
clears the pending OTP and leaves the stored password as it was; no password is
part of either request. -/
theorem reset_code_passes_verifyOTP (D : Deps) (env1 env2 : Env) (s : Store)
    (email : String) (u : User)
    (he : email ≠ "") (hex : findOne email s = some u) (hmail : env1.mailOk = true)
    (hclock : (getOTPExpiration env1.now env1.otpExpireMinutes none).before env2.now = false) :
    (forgotPassword D env1 s (emailBody email)).res
      = ack 200 "Password reset OTP sent to your email" ∧
    (forgotPassword D env1 s (emailBody email)).mails
      = [sendPasswordResetEmail email (generateOTP env1.random) u.name] ∧
    (verifyOTP D env2 (forgotPassword D env1 s (emailBody email)).store
      (verifyBody email (generateOTP env1.random))).res.status = 200 ∧
    (verifyOTP D env2 (forgotPassword D env1 s (emailBody email)).store
      (verifyBody email (generateOTP env1.random))).res.token = some (D.generateToken u._id) ∧
    findOne email (verifyOTP D env2 (forgotPassword D env1 s (emailBody email)).store
      (verifyBody email (generateOTP env1.random))).store
      = some { u with isVerified := true, otp := none, otpExpire := none } := by
  rw [forgotPassword_eq D env1 s email u he hex, if_pos hmail]
  have hfind := findOne_set_otp env1 hex
  have hlive : otpExpired { u with
      otp := some (generateOTP env1.random)
      otpExpire := some (getOTPExpiration env1.now env1.otpExpireMinutes none) } env2.now
      = false := hclock
  refine ⟨rfl, rfl, ?_⟩
  rw [verifyOTP_eq D env2 _ email _ _ he (generateOTP_ne_empty _) hfind,
    if_neg (not_not.mpr rfl), hlive]
  refine ⟨rfl, rfl, ?_⟩
  have h2 := findOne_save
    (fun r : User => { r with isVerified := true, otp := none, otpExpire := none })
    (fun _ => rfl) hfind
  exact h2

/-- Witness: unverified Alice asks for a password reset and submits the reset
code to `verifyOTP`. -/
theorem reset_code_passes_verifyOTP_witness :
    findOne "alice@x.com" [aliceUnverified] = some aliceUnverified ∧
    (verifyOTP demoDeps demoEnv
      (forgotPassword demoDeps demoEnv [aliceUnverified] (emailBody "alice@x.com")).store
      (verifyBody "alice@x.com" (generateOTP demoEnv.random))).res.status = 200 :=
  ⟨by decide, (reset_code_passes_verifyOTP demoDeps demoEnv demoEnv [aliceUnverified]
    "alice@x.com" aliceUnverified (by decide) (by decide) rfl (by decide)).2.2.1⟩

end ServiceLayer
